import Mathlib

/-!
Verification development for the co-analyst plan-build → method-resolve →
code-synthesize → sandbox-execute pipeline.

The Python modules are shallowly embedded: dictionaries become structures or
association lists, Python exceptions become `Except String`, in-place mutation
becomes explicit state passing, and text is manipulated as `List Char`
(Python `str.replace` and the placeholder regex scan are reimplemented
character by character with the same semantics).  Values that depend on the
process environment (the project-root derived paths of `config.py`) are
passed in a `Config` record.
-/

namespace CoAnalyst

/-! ## Text utilities

`pyReplace s pat rep` is Python's `s.replace(pat, rep)` for a non-empty
`pat`: scan left to right, replace each non-overlapping occurrence, resume
after the replaced span.  (The guard `pat ≠ []` only makes the definition
total; every pattern used below is a brace-wrapped name, hence non-empty.)
The recursion is fuelled so that it is structural and the kernel can
evaluate it: every step consumes at least one character, so a fuel of
`s.length` never runs out. -/
def pyReplaceF (bad_fuel : Nat) (s pat rep : List Char) : List Char :=
  match bad_fuel, s with
  | 0, s => s
  | _, [] => []
  | fuel + 1, c :: s2 =>
    if pat ≠ [] ∧ pat.isPrefixOf (c :: s2) then
      rep ++ pyReplaceF fuel ((c :: s2).drop pat.length) pat rep
    else
      c :: pyReplaceF fuel s2 pat rep

/-- Python `s.replace(pat, rep)` (see `pyReplaceF`). -/
def pyReplace (s pat rep : List Char) : List Char :=
  pyReplaceF s.length s pat rep

/-- Whether `pat` occurs as a contiguous substring of `s` (Python's `in`). -/
def containsSub (s pat : List Char) : Bool := decide (pat <:+: s)

/-- The scan of `re.findall(r"\x7b([^\x7d]+)\x7d", code)`, written as a
character automaton so that it is structurally recursive: in state `none`
the scanner looks for an opening brace; in state `some acc` it is inside a
candidate placeholder whose name so far is `acc`, accumulating every
non-close-brace character (including further opening braces, exactly as the
greedy `[^\x7d]+` does).  A closing brace emits the non-empty captured name
and resumes scanning after it — Python's scanner also resumes past the
match.  A close brace right after the open brace is a failed, empty match:
the regex then retries from the close brace, which cannot start a match, so
the automaton simply drops the candidate.  When the input ends inside a
candidate, no close brace remains, so neither the candidate's open brace
nor any later position can match — the automaton correctly emits nothing
more. -/
def findallAux : Option (List Char) → List Char → List (List Char)
  | _, [] => []
  | none, c :: rest =>
    if c = '{' then findallAux (some []) rest else findallAux none rest
  | some acc, c :: rest =>
    if c = '}' then
      if acc = [] then findallAux none rest
      else acc :: findallAux none rest
    else findallAux (some (acc ++ [c])) rest

/-- All placeholder names captured by the scan, in order. -/
def findallPH (s : List Char) : List (List Char) :=
  findallAux none s

/-- Python truthiness of an optional string (`None` and `""` are falsy). -/
def pyTruthyOptStr : Option String → Bool
  | none => false
  | some s => s ≠ ""

/-! ## Task planner (`modules/task_planner.py`)

Steps are dictionaries in the source; the fields below are exactly the keys
the planner writes.  `execution_order` and `parallel_group` are absent until
`_identify_parallel_steps` adds them, hence `Option`. -/

/-- A parameter value as stored in a step's `parameters` dictionary:
a string, an integer, or a list of strings. -/
inductive PVal where
  | s (v : String)
  | i (v : Int)
  | l (v : List String)
deriving DecidableEq

/-- One planner step (the dictionaries built by `_create_*_plan`). -/
structure PlanStep where
  step_id : String
  step_name : String
  task_description : String
  method_id : String
  dependencies : List String
  parameters : List (String × PVal) := []
  expected_output : String
  execution_order : Option Nat := none
  parallel_group : Option Nat := none
deriving DecidableEq

/-- The parsed-intent dictionary as consumed by `create_plan`:
`intent.primary_intent`, `analysis_type`, `extracted_variables`,
`groupby_variable` and the `entities` lists the planner reads. -/
structure ParsedIntent where
  primary_intent : String
  analysis_type : String
  extracted_variables : List String
  groupby_variable : Option String
  date_columns : List String
  numeric_columns : List String
deriving DecidableEq

/-- The RAG knowledge input; the planner receives it but never reads it. -/
abbrev Knowledge := List (String × String)

/-- `_create_exploration_plan`. -/
def create_exploration_plan (_intent : ParsedIntent) (_kn : Knowledge) : List PlanStep :=
  [ { step_id := "1", step_name := "データロードと基本情報確認",
      task_description := "データファイルを読み込み、基本的な情報（行数、列数、データ型）を確認",
      method_id := "data_load_info", dependencies := [],
      expected_output := "データの基本情報とサンプル" },
    { step_id := "2", step_name := "記述統計量の計算",
      task_description := "数値変数の記述統計量（平均、中央値、標準偏差等）を計算",
      method_id := "desc_stats_summary", dependencies := ["1"],
      expected_output := "記述統計量テーブル" },
    { step_id := "3", step_name := "欠損値とデータ品質の確認",
      task_description := "各列の欠損値の数と割合、データ品質を確認",
      method_id := "data_quality_check", dependencies := ["1"],
      expected_output := "データ品質レポート" },
    { step_id := "4", step_name := "データ分布の可視化",
      task_description := "主要な変数のヒストグラムや箱ひげ図を作成",
      method_id := "distribution_visualization", dependencies := ["2"],
      expected_output := "分布グラフ" } ]

/-- `_create_descriptive_stats_plan`; the third step is appended exactly when
`parsed_intent.get("groupby_variable")` is truthy. -/
def create_descriptive_stats_plan (intent : ParsedIntent) (_kn : Knowledge) : List PlanStep :=
  let base : List PlanStep :=
    [ { step_id := "1", step_name := "データロード",
        task_description := "データファイルを読み込み",
        method_id := "data_load", dependencies := [],
        expected_output := "データフレーム" },
      { step_id := "2", step_name := "記述統計量計算",
        task_description := "指定された変数の記述統計量を計算",
        method_id := "desc_stats_summary", dependencies := ["1"],
        parameters := [("variables", PVal.l intent.extracted_variables)],
        expected_output := "記述統計量テーブル" } ]
  if pyTruthyOptStr intent.groupby_variable then
    base ++
      [ { step_id := "3", step_name := "グループ別記述統計量",
          task_description := "グループ別の記述統計量を計算",
          method_id := "desc_stats_groupby", dependencies := ["2"],
          parameters := [("groupby", PVal.s (intent.groupby_variable.getD ""))],
          expected_output := "グループ別統計量テーブル" } ]
  else base

/-- `_create_correlation_plan`. -/
def create_correlation_plan (_intent : ParsedIntent) (_kn : Knowledge) : List PlanStep :=
  [ { step_id := "1", step_name := "データロード",
      task_description := "データファイルを読み込み",
      method_id := "data_load", dependencies := [],
      expected_output := "データフレーム" },
    { step_id := "2", step_name := "数値変数選択",
      task_description := "相関分析対象の数値変数を選択",
      method_id := "select_numeric_variables", dependencies := ["1"],
      expected_output := "数値変数リスト" },
    { step_id := "3", step_name := "相関分析実行",
      task_description := "変数間の相関係数を計算し、相関行列とヒートマップを作成",
      method_id := "correlation_analysis", dependencies := ["2"],
      expected_output := "相関行列とヒートマップ" } ]

/-- `_create_trend_analysis_plan`; the date and value columns fall back to
"日付" / "売上" when the corresponding entity list is empty. -/
def create_trend_analysis_plan (intent : ParsedIntent) (_kn : Knowledge) : List PlanStep :=
  [ { step_id := "1", step_name := "データロード",
      task_description := "データファイルを読み込み",
      method_id := "data_load", dependencies := [],
      expected_output := "データフレーム" },
    { step_id := "2", step_name := "日付列変換",
      task_description := "日付データをdatetime型に変換",
      method_id := "convert_to_datetime", dependencies := ["1"],
      parameters := [("column", PVal.s (intent.date_columns.headD "日付"))],
      expected_output := "日付変換済みデータ" },
    { step_id := "3", step_name := "時系列集計",
      task_description := "指定された期間で数値データを集計",
      method_id := "aggregate_by_month", dependencies := ["2"],
      parameters := [("date_column", PVal.s (intent.date_columns.headD "日付")),
                     ("value_column", PVal.s (intent.numeric_columns.headD "売上"))],
      expected_output := "時系列集計データ" },
    { step_id := "4", step_name := "トレンド可視化",
      task_description := "時系列データを折れ線グラフで可視化",
      method_id := "line_chart", dependencies := ["3"],
      expected_output := "トレンドグラフ" } ]

/-- `_create_clustering_plan`. -/
def create_clustering_plan (_intent : ParsedIntent) (_kn : Knowledge) : List PlanStep :=
  [ { step_id := "1", step_name := "データロード",
      task_description := "データファイルを読み込み",
      method_id := "data_load", dependencies := [],
      expected_output := "データフレーム" },
    { step_id := "2", step_name := "特徴量選択",
      task_description := "クラスタリングに使用する特徴量を選択",
      method_id := "feature_selection", dependencies := ["1"],
      expected_output := "特徴量データ" },
    { step_id := "3", step_name := "欠損値処理",
      task_description := "特徴量の欠損値を適切に処理",
      method_id := "handle_missing_median", dependencies := ["2"],
      expected_output := "欠損値処理済みデータ" },
    { step_id := "4", step_name := "特徴量標準化",
      task_description := "特徴量を標準化（平均0、分散1）",
      method_id := "standardize_features", dependencies := ["3"],
      expected_output := "標準化済みデータ" },
    { step_id := "5", step_name := "K-meansクラスタリング実行",
      task_description := "K-meansアルゴリズムでクラスタリングを実行",
      method_id := "kmeans_clustering", dependencies := ["4"],
      parameters := [("n_clusters", PVal.i 4)],
      expected_output := "クラスタリング結果" },
    { step_id := "6", step_name := "クラスター分析",
      task_description := "各クラスターの特徴を分析",
      method_id := "cluster_analysis", dependencies := ["5"],
      expected_output := "クラスター特徴分析" } ]

/-- `_create_regression_plan`. -/
def create_regression_plan (_intent : ParsedIntent) (_kn : Knowledge) : List PlanStep :=
  [ { step_id := "1", step_name := "データロード",
      task_description := "データファイルを読み込み",
      method_id := "data_load", dependencies := [],
      expected_output := "データフレーム" },
    { step_id := "2", step_name := "変数選択",
      task_description := "目的変数と説明変数を選択",
      method_id := "variable_selection", dependencies := ["1"],
      expected_output := "変数選択結果" },
    { step_id := "3", step_name := "前処理",
      task_description := "欠損値処理と外れ値除去",
      method_id := "data_preprocessing", dependencies := ["2"],
      expected_output := "前処理済みデータ" },
    { step_id := "4", step_name := "線形回帰分析",
      task_description := "線形回帰モデルを構築し評価",
      method_id := "linear_regression", dependencies := ["3"],
      expected_output := "回帰分析結果" } ]

/-- `_create_hypothesis_testing_plan`. -/
def create_hypothesis_testing_plan (_intent : ParsedIntent) (_kn : Knowledge) : List PlanStep :=
  [ { step_id := "1", step_name := "データロード",
      task_description := "データファイルを読み込み",
      method_id := "data_load", dependencies := [],
      expected_output := "データフレーム" },
    { step_id := "2", step_name := "検定対象変数の確認",
      task_description := "検定対象の数値変数とグループ変数を確認",
      method_id := "test_variable_check", dependencies := ["1"],
      expected_output := "検定変数情報" },
    { step_id := "3", step_name := "独立2標本t検定",
      task_description := "2つのグループ間の平均値の差を検定",
      method_id := "t_test_independent", dependencies := ["2"],
      expected_output := "t検定結果" } ]

/-- The body of `for dep in step.get("dependencies", []): if dep not in
step_ids: step["dependencies"].remove(dep)`.  Python's list iterator keeps a
cursor that advances by one after every element, while `remove` shifts the
remaining elements left, so the element after a removed one is skipped.  The
cursor `i` reads `lst[i]`, then the body possibly erases the first occurrence
of that element, and the cursor moves to `i+1` of the (possibly shortened)
list. -/
def pyRemoveLoopF (bad : String → Bool) : Nat → List String → Nat → List String
  | 0, lst, _ => lst
  | fuel + 1, lst, i =>
    match lst[i]? with
    | none => lst
    | some x =>
      if bad x then pyRemoveLoopF bad fuel (lst.erase x) (i + 1)
      else pyRemoveLoopF bad fuel lst (i + 1)

/-- The removal loop (see `pyRemoveLoopF`); every iteration advances the
cursor by one and never lengthens the list, so a fuel of `lst.length + 1`
never runs out. -/
def pyRemoveLoop (bad : String → Bool) (lst : List String) (i : Nat) : List String :=
  pyRemoveLoopF bad (lst.length + 1) lst i

/-- `_validate_dependencies`: the ids are read off the incoming plan once,
then each step's dependency list is filtered by the (cursor-skipping) removal
loop above. -/
def validate_dependencies (plan : List PlanStep) : List PlanStep :=
  let step_ids := plan.map (fun st => st.step_id)
  plan.map (fun st =>
    { st with dependencies := pyRemoveLoop (fun d => !step_ids.contains d) st.dependencies 0 })

/-- The accumulator loop of `_remove_duplicates`: `seen` is the set of
method ids already emitted. -/
def removeDupGo (seen : List String) : List PlanStep → List PlanStep
  | [] => []
  | st :: rest =>
    if st.method_id ∈ seen then removeDupGo seen rest
    else st :: removeDupGo (st.method_id :: seen) rest

/-- `_remove_duplicates`: keep a step only when its method_id was not seen
before. -/
def remove_duplicates (plan : List PlanStep) : List PlanStep :=
  removeDupGo [] plan

/-- `_identify_parallel_steps`: assign 1-based execution_order and a null
parallel_group; `i` is the number of steps already numbered. -/
def assignOrder (i : Nat) : List PlanStep → List PlanStep
  | [] => []
  | st :: rest =>
    { st with execution_order := some (i + 1), parallel_group := none } :: assignOrder (i + 1) rest

/-- `_optimize_plan`: validate dependencies, deduplicate, then number. -/
def optimize_plan (plan : List PlanStep) : List PlanStep :=
  assignOrder 0 (remove_duplicates (validate_dependencies plan))

/-- `create_plan`: dispatch on `primary_intent` over the fixed tag set, with
the exploration skeleton as the default branch, then post-process with
`_optimize_plan`. -/
def create_plan (intent : ParsedIntent) (kn : Knowledge) : List PlanStep :=
  let plan :=
    if intent.primary_intent = "data_exploration" then create_exploration_plan intent kn
    else if intent.primary_intent = "descriptive_statistics" then create_descriptive_stats_plan intent kn
    else if intent.primary_intent = "correlation_analysis" then create_correlation_plan intent kn
    else if intent.primary_intent = "trend_analysis" then create_trend_analysis_plan intent kn
    else if intent.primary_intent = "clustering" then create_clustering_plan intent kn
    else if intent.primary_intent = "regression_analysis" then create_regression_plan intent kn
    else if intent.primary_intent = "hypothesis_testing" then create_hypothesis_testing_plan intent kn
    else create_exploration_plan intent kn
  optimize_plan plan


/-! ## Method selector (`modules/method_selector.py`)

`select` looks the step's `method_id` up in a mapping that is rebuilt from a
dict literal on every call (so the catalog is never shared across calls),
falls back to a generic descriptor, and then runs `_adjust_parameters`.
`_adjust_parameters` mutates dictionaries in place; the embedding passes the
step state explicitly and returns the (possibly mutated) step next to the
method: the assignment `method["parameters"] = step["parameters"]` aliases
the step's parameter dictionary into the method, so a later in-place insert
into `method["parameters"]` also updates the step. -/

/-- A step as read by the selector and the code generator: only `method_id`
and `parameters` are consulted, and either key may be absent. -/
structure SelStep where
  method_id : Option String
  parameters : Option (List (String × PVal))
deriving DecidableEq

/-- A method descriptor dictionary.  `parameters` and `variables_filter` are
absent from every catalog literal and only added by `_adjust_parameters`. -/
structure SelMethod where
  id : String
  name : String
  library : String
  function : String
  template_type : String
  code_template : String
  parameters : Option (List (String × PVal)) := none
  variables_filter : Option String := none
deriving DecidableEq

/-- `_get_method_mapping`: the static catalog, eleven entries. -/
def method_mapping : List (String × SelMethod) :=
  [ ("data_load", { id := "data_load", name := "データロード", library := "pandas", function := "read_csv", template_type := "data_io", code_template := "import pandas as pd\ndf = pd.read_csv('\x7bdata_path\x7d')\nprint(f'データサイズ: \x7bdf.shape\x7d')\nprint(df.head())" }),
("data_load_info", { id := "data_load_info", name := "データロードと情報確認", library := "pandas", function := "info", template_type := "data_exploration", code_template := "import pandas as pd\ndf = pd.read_csv('\x7bdata_path\x7d')\nprint('=== データ基本情報 ===')\nprint(f'データサイズ: \x7bdf.shape\x7d')\nprint('\\n=== データ型情報 ===')\nprint(df.dtypes)\nprint('\\n=== 最初の5行 ===')\nprint(df.head())\nprint('\\n=== 基本統計量 ===')\nprint(df.describe())" }),
("desc_stats_summary", { id := "desc_stats_summary", name := "記述統計量要約", library := "pandas", function := "describe", template_type := "statistical_analysis", code_template := "import pandas as pd\ndf = pd.read_csv('\x7bdata_path\x7d')\n\x7bvariables_filter\x7dresult = df.describe()\nprint('=== 記述統計量 ===')\nprint(result)\nresult.to_csv('\x7boutput_path\x7d/desc_stats.csv')" }),
("correlation_analysis", { id := "correlation_analysis", name := "相関分析", library := "pandas, matplotlib, seaborn", function := "corr", template_type := "correlation", code_template := "import pandas as pd\nimport matplotlib.pyplot as plt\nimport seaborn as sns\nimport numpy as np\ndf = pd.read_csv('\x7bdata_path\x7d')\n# 数値列のみ選択\nnumeric_cols = df.select_dtypes(include=[np.number]).columns.tolist()\ncorr_matrix = df[numeric_cols].corr()\nprint('=== 相関行列 ===')\nprint(corr_matrix)\n# ヒートマップ作成\nplt.figure(figsize=(10, 8))\nsns.heatmap(corr_matrix, annot=True, cmap='coolwarm', center=0, square=True)\nplt.title('変数間相関ヒートマップ')\nplt.tight_layout()\nplt.savefig('\x7boutput_path\x7d/correlation_heatmap.png', dpi=300, bbox_inches='tight')\nplt.close()\ncorr_matrix.to_csv('\x7boutput_path\x7d/correlation_matrix.csv')" }),
("t_test_independent", { id := "t_test_independent", name := "独立2標本t検定", library := "scipy, pandas", function := "ttest_ind", template_type := "hypothesis_testing", code_template := "from scipy import stats\nimport pandas as pd\nimport numpy as np\ndf = pd.read_csv('\x7bdata_path\x7d')\n# グループの確認\ngroups = df['\x7bgroup_column\x7d'].unique()\nprint(f'グループ: \x7bgroups\x7d')\nif len(groups) != 2:\n    print('警告: t検定には2つのグループが必要です')\n    exit()\ngroup1_data = df[df['\x7bgroup_column\x7d'] == groups[0]]['\x7bdata_column\x7d'].dropna()\ngroup2_data = df[df['\x7bgroup_column\x7d'] == groups[1]]['\x7bdata_column\x7d'].dropna()\nprint(f'グループ1 (\x7bgroups[0]\x7d): 平均=\x7bgroup1_data.mean():.4f\x7d, 標準偏差=\x7bgroup1_data.std():.4f\x7d, サンプル数=\x7blen(group1_data)\x7d')\nprint(f'グループ2 (\x7bgroups[1]\x7d): 平均=\x7bgroup2_data.mean():.4f\x7d, 標準偏差=\x7bgroup2_data.std():.4f\x7d, サンプル数=\x7blen(group2_data)\x7d')\nt_stat, p_value = stats.ttest_ind(group1_data, group2_data)\nprint(f'\\n=== t検定結果 ===')\nprint(f'T統計量: \x7bt_stat:.4f\x7d')\nprint(f'P値: \x7bp_value:.4f\x7d')\nif p_value < 0.05:\n    print('結論: 有意水準5%で統計的に有意な差があります')\nelse:\n    print('結論: 有意水準5%で統計的に有意な差は認められません')\nresult = \x7b't_statistic': t_stat, 'p_value': p_value, 'group1_mean': group1_data.mean(), 'group2_mean': group2_data.mean(), 'group1_std': group1_data.std(), 'group2_std': group2_data.std()\x7d\nimport json\nwith open('\x7boutput_path\x7d/t_test_result.json', 'w', encoding='utf-8') as f:\n    json.dump(result, f, ensure_ascii=False, indent=2)" }),
("linear_regression", { id := "linear_regression", name := "線形回帰分析", library := "scikit-learn, pandas, matplotlib", function := "LinearRegression", template_type := "machine_learning", code_template := "import pandas as pd\nfrom sklearn.linear_model import LinearRegression\nfrom sklearn.metrics import r2_score, mean_squared_error\nimport matplotlib.pyplot as plt\nimport numpy as np\ndf = pd.read_csv('\x7bdata_path\x7d')\n# 欠損値の除去\ndf_clean = df.dropna()\nX = df_clean[\x7bfeature_variables\x7d]\ny = df_clean['\x7btarget_variable\x7d']\nprint(f'使用データ数: \x7blen(df_clean)\x7d')\nprint(f'説明変数: \x7blist(X.columns)\x7d')\nprint(f'目的変数: \x7by.name\x7d')\nmodel = LinearRegression()\nmodel.fit(X, y)\ny_pred = model.predict(X)\nr2 = r2_score(y, y_pred)\nrmse = np.sqrt(mean_squared_error(y, y_pred))\nprint(f'\\n=== 回帰分析結果 ===')\nprint(f'決定係数 (R²): \x7br2:.4f\x7d')\nprint(f'RMSE: \x7brmse:.4f\x7d')\nprint(f'切片: \x7bmodel.intercept_:.4f\x7d')\nfor i, coef in enumerate(model.coef_):\n    print(f'\x7bX.columns[i]\x7dの回帰係数: \x7bcoef:.4f\x7d')\n# 散布図と回帰直線（単回帰の場合）\nif len(X.columns) == 1:\n    plt.figure(figsize=(10, 6))\n    plt.scatter(X.iloc[:, 0], y, alpha=0.6, label='実測値')\n    plt.plot(X.iloc[:, 0], y_pred, color='red', label='回帰直線')\n    plt.xlabel(X.columns[0])\n    plt.ylabel(y.name)\n    plt.title(f'回帰分析結果 (R² = \x7br2:.3f\x7d)')\n    plt.legend()\n    plt.savefig('\x7boutput_path\x7d/regression_plot.png', dpi=300, bbox_inches='tight')\n    plt.close()\nresult = \x7b'r2_score': r2, 'rmse': rmse, 'coefficients': model.coef_.tolist(), 'intercept': model.intercept_, 'feature_names': list(X.columns)\x7d\nimport json\nwith open('\x7boutput_path\x7d/regression_result.json', 'w', encoding='utf-8') as f:\n    json.dump(result, f, ensure_ascii=False, indent=2)" }),
("kmeans_clustering", { id := "kmeans_clustering", name := "K-meansクラスタリング", library := "scikit-learn, pandas, matplotlib", function := "KMeans", template_type := "machine_learning", code_template := "import pandas as pd\nfrom sklearn.cluster import KMeans\nfrom sklearn.preprocessing import StandardScaler\nfrom sklearn.metrics import silhouette_score\nimport matplotlib.pyplot as plt\nimport numpy as np\ndf = pd.read_csv('\x7bdata_path\x7d')\n# 欠損値の除去\ndf_clean = df.dropna()\nX = df_clean[\x7bfeatures\x7d]\nprint(f'クラスタリング対象データ数: \x7blen(df_clean)\x7d')\nprint(f'使用特徴量: \x7blist(X.columns)\x7d')\n# 標準化\nscaler = StandardScaler()\nX_scaled = scaler.fit_transform(X)\n# K-meansクラスタリング\nkmeans = KMeans(n_clusters=\x7bn_clusters\x7d, random_state=42, n_init=10)\ncluster_labels = kmeans.fit_predict(X_scaled)\n# シルエット係数の計算\nsilhouette_avg = silhouette_score(X_scaled, cluster_labels)\nprint(f'\\n=== クラスタリング結果 ===')\nprint(f'クラスター数: \x7bkmeans.n_clusters\x7d')\nprint(f'シルエット係数: \x7bsilhouette_avg:.4f\x7d')\n# 各クラスターの統計情報\ndf_clean['cluster'] = cluster_labels\nfor cluster_id in range(kmeans.n_clusters):\n    cluster_data = df_clean[df_clean['cluster'] == cluster_id]\n    print(f'\\nクラスター \x7bcluster_id\x7d: \x7blen(cluster_data)\x7d件')\n    print(cluster_data[\x7bfeatures\x7d].describe())\n# クラスタリング結果の保存\ndf_clean.to_csv('\x7boutput_path\x7d/clustered_data.csv', index=False)\n# 2次元での可視化（最初の2つの特徴量）\nif len(\x7bfeatures\x7d) >= 2:\n    plt.figure(figsize=(10, 8))\n    scatter = plt.scatter(X_scaled[:, 0], X_scaled[:, 1], c=cluster_labels, cmap='viridis', alpha=0.7)\n    plt.colorbar(scatter)\n    plt.xlabel(f'\x7bX.columns[0]\x7d (標準化済み)')\n    plt.ylabel(f'\x7bX.columns[1]\x7d (標準化済み)')\n    plt.title(f'K-meansクラスタリング結果 (シルエット係数: \x7bsilhouette_avg:.3f\x7d)')\n    plt.savefig('\x7boutput_path\x7d/clustering_plot.png', dpi=300, bbox_inches='tight')\n    plt.close()\nresult = \x7b'silhouette_score': silhouette_avg, 'n_clusters': kmeans.n_clusters, 'cluster_centers': kmeans.cluster_centers_.tolist(), 'cluster_counts': [int(sum(cluster_labels == i)) for i in range(kmeans.n_clusters)]\x7d\nimport json\nwith open('\x7boutput_path\x7d/clustering_result.json', 'w', encoding='utf-8') as f:\n    json.dump(result, f, ensure_ascii=False, indent=2)" }),
("data_quality_check", { id := "data_quality_check", name := "データ品質確認", library := "pandas", function := "isnull", template_type := "data_exploration", code_template := "import pandas as pd\nimport numpy as np\ndf = pd.read_csv('\x7bdata_path\x7d')\nprint('=== データ品質レポート ===')\nprint(f'総行数: \x7blen(df)\x7d')\nprint(f'総列数: \x7blen(df.columns)\x7d')\nprint('\\n=== 欠損値情報 ===')\nmissing_info = df.isnull().sum()\nmissing_percent = (missing_info / len(df)) * 100\nmissing_df = pd.DataFrame(\x7b\x7b\n    '欠損値数': missing_info,\n    '欠損率(%)': missing_percent\n\x7d\x7d)\nprint(missing_df[missing_df['欠損値数'] > 0])\nprint('\\n=== データ型情報 ===')\nprint(df.dtypes.value_counts())\nprint('\\n=== 数値列の外れ値チェック ===')\nnumeric_cols = df.select_dtypes(include=[np.number]).columns\nfor col in numeric_cols:\n    Q1 = df[col].quantile(0.25)\n    Q3 = df[col].quantile(0.75)\n    IQR = Q3 - Q1\n    lower_bound = Q1 - 1.5 * IQR\n    upper_bound = Q3 + 1.5 * IQR\n    outliers = df[(df[col] < lower_bound) | (df[col] > upper_bound)]\n    print(f'\x7bcol\x7d: 外れ値候補 \x7blen(outliers)\x7d件 (\x7blen(outliers)/len(df)*100:.1f\x7d%)')\nquality_report = \x7b\x7b\n    'total_rows': len(df),\n    'total_columns': len(df.columns),\n    'missing_values': missing_info.to_dict(),\n    'data_types': df.dtypes.astype(str).to_dict()\n\x7d\x7d\nimport json\nwith open('\x7boutput_path\x7d/data_quality_report.json', 'w', encoding='utf-8') as f:\n    json.dump(quality_report, f, ensure_ascii=False, indent=2)" }),
("convert_to_datetime", { id := "convert_to_datetime", name := "日付型変換", library := "pandas", function := "to_datetime", template_type := "data_processing", code_template := "import pandas as pd\ndf = pd.read_csv('\x7bdata_path\x7d')\nprint(f'変換前の\x7bcolumn\x7dのデータ型: \x7bdf[\\'\x7bcolumn\x7d\\'].dtype\x7d')\nprint(f'変換前のサンプル値:')\nprint(df['\x7bcolumn\x7d'].head())\ntry:\n    df['\x7bcolumn\x7d'] = pd.to_datetime(df['\x7bcolumn\x7d'])\n    print(f'\\n変換後の\x7bcolumn\x7dのデータ型: \x7bdf[\\'\x7bcolumn\x7d\\'].dtype\x7d')\n    print(f'日付範囲: \x7bdf[\\'\x7bcolumn\x7d\\'].min()\x7d から \x7bdf[\\'\x7bcolumn\x7d\\'].max()\x7d')\n    df.to_csv('\x7boutput_path\x7d/datetime_converted.csv', index=False)\n    print(f'変換済みデータを保存しました: \x7boutput_path\x7d/datetime_converted.csv')\nexcept Exception as e:\n    print(f'日付変換エラー: \x7be\x7d')\n    print('日付フォーマットを確認してください')" }),
("aggregate_by_month", { id := "aggregate_by_month", name := "月別集計", library := "pandas", function := "groupby", template_type := "data_processing", code_template := "import pandas as pd\ndf = pd.read_csv('\x7bdata_path\x7d')\ndf['\x7bdate_column\x7d'] = pd.to_datetime(df['\x7bdate_column\x7d'])\ndf['year_month'] = df['\x7bdate_column\x7d'].dt.to_period('M')\nagg_method = '\x7baggregation\x7d' if '\x7baggregation\x7d' else 'sum'\nprint(f'集計方法: \x7bagg_method\x7d')\nprint(f'集計対象列: \x7bvalue_column\x7d')\nif agg_method == 'sum':\n    monthly_data = df.groupby('year_month')['\x7bvalue_column\x7d'].sum().reset_index()\nelif agg_method == 'mean':\n    monthly_data = df.groupby('year_month')['\x7bvalue_column\x7d'].mean().reset_index()\nelif agg_method == 'count':\n    monthly_data = df.groupby('year_month')['\x7bvalue_column\x7d'].count().reset_index()\nelse:\n    monthly_data = df.groupby('year_month')['\x7bvalue_column\x7d'].sum().reset_index()\nmonthly_data['year_month'] = monthly_data['year_month'].astype(str)\nprint('\\n=== 月別集計結果 ===')\nprint(monthly_data)\nmonthly_data.to_csv('\x7boutput_path\x7d/monthly_aggregated.csv', index=False)\nprint(f'月別集計データを保存しました: \x7boutput_path\x7d/monthly_aggregated.csv')" }),
("line_chart", { id := "line_chart", name := "折れ線グラフ作成", library := "matplotlib, pandas", function := "plot", template_type := "visualization", code_template := "import pandas as pd\nimport matplotlib.pyplot as plt\nimport matplotlib.dates as mdates\nfrom datetime import datetime\n# 日本語フォント設定\nplt.rcParams['font.family'] = 'DejaVu Sans'\n# データ読み込み\ndf = pd.read_csv('\x7bdata_path\x7d')\nif 'year_month' in df.columns:\n    df['date'] = pd.to_datetime(df['year_month'])\nelse:\n    df['date'] = pd.to_datetime(df['\x7bx_axis\x7d'])\nplt.figure(figsize=(12, 6))\nplt.plot(df['date'], df['\x7by_axis\x7d'], marker='o', linewidth=2, markersize=6)\nplt.title('\x7btitle\x7d', fontsize=16, fontweight='bold')\nplt.xlabel('日付', fontsize=12)\nplt.ylabel('\x7by_axis\x7d', fontsize=12)\nplt.grid(True, alpha=0.3)\nplt.xticks(rotation=45)\nplt.tight_layout()\nplt.savefig('\x7boutput_path\x7d/line_chart.png', dpi=300, bbox_inches='tight')\nplt.close()\nprint(f'折れ線グラフを作成しました: \x7boutput_path\x7d/line_chart.png')" }) ]

/-- `_get_default_method`. -/
def get_default_method (_step : SelStep) : SelMethod :=
  { id := "default", name := "デフォルト処理", library := "pandas", function := "basic", template_type := "general", code_template := "import pandas as pd\n# デフォルト処理\nprint('処理を実行中...')" }

/-- Python `str()` of a parameter value (`str` of a string is itself, of an
int its decimal form, of a list of strings its bracketed repr). -/
def pyStrOfVal : PVal → String
  | .s v => v
  | .i v => toString v
  | .l vs => "[" ++ String.intercalate ", " (vs.map (fun x => "'" ++ x ++ "'")) ++ "]"

/-- Python truthiness of a parameter value. -/
def pyTruthyVal : PVal → Bool
  | .s v => v ≠ ""
  | .i v => v ≠ 0
  | .l vs => vs ≠ []

/-- The f-string `selected_vars = \x7bvariables\x7d\ndf = df[selected_vars]\n`. -/
def mkVariablesFilter (v : PVal) : String :=
  "selected_vars = " ++ pyStrOfVal v ++ "\ndf = df[selected_vars]\n"

/-- `_adjust_parameters`.  Returns the adjusted method together with the step
as it stands afterwards.  The step changes exactly when the method is the
clustering one, the step carried a parameters dictionary (which the first
assignment aliased into the method) and that dictionary lacked
`n_clusters`: the in-place default insert then lands in the step's own
dictionary. -/
def adjust_parameters (method : SelMethod) (step : SelStep) : SelMethod × SelStep :=
  let aliased := step.parameters.isSome
  let m1 := match step.parameters with
    | some p => { method with parameters := some p }
    | none => method
  if m1.id = "kmeans_clustering" then
    match m1.parameters with
    | none => ({ m1 with parameters := some [("n_clusters", PVal.i 4)] }, step)
    | some ps =>
      if (ps.lookup "n_clusters").isSome then (m1, step)
      else
        let ps2 := ps ++ [("n_clusters", PVal.i 4)]
        ({ m1 with parameters := some ps2 },
         if aliased then { step with parameters := some ps2 } else step)
  else if m1.id = "desc_stats_summary" then
    match m1.parameters with
    | some ps =>
      match ps.lookup "variables" with
      | some v =>
        if pyTruthyVal v then
          ({ m1 with variables_filter := some (mkVariablesFilter v) }, step)
        else
          ({ m1 with variables_filter := some "# 全ての数値変数を使用\n" }, step)
      | none => ({ m1 with variables_filter := some "# 全ての数値変数を使用\n" }, step)
    | none => ({ m1 with variables_filter := some "# 全ての数値変数を使用\n" }, step)
  else (m1, step)

/-- `select`: catalog lookup with the generic fallback, then parameter
adjustment.  The second component is the step as `_adjust_parameters` left
it. -/
def select (step : SelStep) : SelMethod × SelStep :=
  let selected := match step.method_id with
    | some mid =>
      match method_mapping.lookup mid with
      | some m => m
      | none => get_default_method step
    | none => get_default_method step
  adjust_parameters selected step


/-! ## Code generator (`modules/code_generator.py`)

Parameter values are Python objects serialized with `str()` at the point of
substitution; the embedding serializes them with `pyStrOfVal` when they enter
the parameter dictionary, which yields the same substituted text
(`_format_list_parameters` only pre-serializes list values for three keys,
and `_substitute_template` applies `str` to everything else). -/

/-- The configuration values the pipeline reads from `config.py`.  The paths
are derived from the process-dependent project root, so they are parameters
of the model; `CODE_TIMEOUT` is 30 in the source. -/
structure Config where
  OUTPUT_PATH : String
  DATA_PATH : String
  EXECUTION_PATH : String
  CODE_TIMEOUT : Nat
deriving DecidableEq

/-- Python dict assignment `d[k] = v`: overwrite in place when the key
exists, else append at the end (insertion order is preserved). -/
def dictSet (d : List (String × String)) (k v : String) : List (String × String) :=
  if (d.lookup k).isSome then d.map (fun kv => if kv.1 = k then (k, v) else kv)
  else d ++ [(k, v)]

/-- Python `d.update(u)`: assign every pair of `u` in order. -/
def dictUpdate (d u : List (String × String)) : List (String × String) :=
  u.foldl (fun acc kv => dictSet acc kv.1 kv.2) d

/-- `_format_list_parameters`: list values of the three list-typed keys are
serialized to their literal sequence form.  The embedding's values are
already serialized strings, so the pass is the identity here. -/
def format_list_parameters (parameters : List (String × String)) : List (String × String) :=
  parameters

/-- `_prepare_parameters`: the compiled-in defaults, overwritten by the
step's parameters, then the method's parameters, then the method-specific
`variables_filter`. -/
def prepare_parameters (cfg : Config) (step : SelStep) (method : SelMethod) :
    List (String × String) :=
  let base : List (String × String) :=
    [ ("data_path", cfg.DATA_PATH ++ "/sample_data.csv"),
      ("output_path", cfg.OUTPUT_PATH),
      ("date_column", "日付"),
      ("value_column", "売上"),
      ("group_column", "グループ"),
      ("data_column", "値"),
      ("target_variable", "目的変数"),
      ("feature_variables", "['特徴量1', '特徴量2']"),
      ("features", "['特徴量1', '特徴量2']"),
      ("variables_select", "df.select_dtypes(include=[np.number]).columns.tolist()"),
      ("groupby_code", ""),
      ("variables_filter", ""),
      ("column", "列名"),
      ("columns", "['列1', '列2']"),
      ("x_axis", "x"),
      ("y_axis", "y"),
      ("title", "グラフタイトル"),
      ("aggregation", "sum"),
      ("n_clusters", "4") ]
  let p1 := match step.parameters with
    | some ps => dictUpdate base (ps.map (fun kv => (kv.1, pyStrOfVal kv.2)))
    | none => base
  let p2 := match method.parameters with
    | some ps => dictUpdate p1 (ps.map (fun kv => (kv.1, pyStrOfVal kv.2)))
    | none => p1
  let p3 := match method.variables_filter with
    | some vf => dictSet p2 "variables_filter" vf
    | none => p2
  format_list_parameters p3

/-- The fixed default table of `_get_default_value` (16 entries; the
`output_path` entry reads the configuration). -/
def default_values (cfg : Config) : List (String × String) :=
  [ ("data_path", "data/sample_data.csv"),
    ("output_path", cfg.OUTPUT_PATH),
    ("column", "column_name"),
    ("columns", "['column1', 'column2']"),
    ("date_column", "日付"),
    ("value_column", "値"),
    ("group_column", "グループ"),
    ("data_column", "データ"),
    ("target_variable", "target"),
    ("feature_variables", "['feature1', 'feature2']"),
    ("features", "['feature1', 'feature2']"),
    ("x_axis", "x"),
    ("y_axis", "y"),
    ("title", "分析結果"),
    ("aggregation", "sum"),
    ("n_clusters", "4") ]

/-- `_get_default_value`: table lookup, falling back to the quoted
placeholder name itself. -/
def get_default_value (cfg : Config) (name : List Char) : List Char :=
  match (default_values cfg).lookup (String.mk name) with
  | some v => v.data
  | none => '\'' :: (name ++ ['\''])

/-- The parameter-substitution loop of `_substitute_template`: for each
parameter in dictionary order, if its brace-wrapped key occurs in the code,
replace every occurrence with the value. -/
def substitute_loop (params : List (String × String)) (template : List Char) : List Char :=
  params.foldl
    (fun code kv =>
      if containsSub code ('{' :: (kv.1.data ++ ['}'])) then
        pyReplace code ('{' :: (kv.1.data ++ ['}'])) kv.2.data
      else code)
    template

/-- `_handle_undefined_placeholders`: scan the code for remaining
placeholders, then replace each captured name (every occurrence of its
brace-wrapped form) with its default value; each such fallback is logged as
a warning in the source. -/
def handle_undefined_placeholders (cfg : Config) (code : List Char) : List Char :=
  (findallPH code).foldl
    (fun c m => pyReplace c ('{' :: (m ++ ['}'])) (get_default_value cfg m))
    code

/-- `_substitute_template`: the parameter loop followed by the
undefined-placeholder pass. -/
def substitute_template (cfg : Config) (template : List Char)
    (params : List (String × String)) : List Char :=
  handle_undefined_placeholders cfg (substitute_loop params template)

/-- `_fix_syntax_errors`.  Both repair rules of the source rewrite each
matched span to the identical text (the replacement of
`df\['([^']+)'\]\.isnull\(\)\.sum\(\)` re-emits the match, and that of
`^(\s*)(print\()` re-emits its two groups), so the pass never changes the
code text. -/
def fix_syntax_errors (code : List Char) : List Char :=
  code

/-- `_security_check`: pattern matches are logged as warnings only; the code
text is returned unchanged. -/
def security_check (code : List Char) : List Char :=
  code

/-- `_validate_code`: a failed `compile` triggers `_fix_syntax_errors`
(which is the identity on the text, see above), then the advisory security
scan runs; the text is returned as is on either path. -/
def validate_code (code : List Char) : List Char :=
  security_check (fix_syntax_errors code)

/-- The result dictionary of `CodeGenerator.generate`. -/
structure GeneratedCode where
  code : List Char
  language : String
  method_id : String
  method_name : String
  library_dependencies : String
  parameters : List (String × String)
  template_type : String
deriving DecidableEq

/-- `CodeGenerator.generate`: template lookup, parameter preparation,
substitution, validation, and packaging. -/
def generate (cfg : Config) (step : SelStep) (method : SelMethod) : GeneratedCode :=
  let template := method.code_template
  let parameters := prepare_parameters cfg step method
  let generated_code := substitute_template cfg template.data parameters
  let validated_code := validate_code generated_code
  { code := validated_code,
    language := "python",
    method_id := method.id,
    method_name := method.name,
    library_dependencies := method.library,
    parameters := parameters,
    template_type := method.template_type }

/-- Unresolved placeholder syntax in the spec's sense: some substring is an
opening brace, a non-empty brace-free name, and a closing brace. -/
def specUnresolved (s : List Char) : Prop :=
  ∃ pre name post,
    s = pre ++ '{' :: (name ++ '}' :: post) ∧ name ≠ [] ∧ '{' ∉ name ∧ '}' ∉ name


/-! ## Code executor (`execution/code_executor.py`)

The child process and the filesystem are modelled explicitly: an `FS` record
lists the existing file and directory paths, the outcome of
`subprocess.run` is an `RunOutcome` parameter (normal completion with a
captured result, `TimeoutExpired`, or another launch error), and the files
found under the shared output directory by `os.walk` are a parameter of the
result-processing step. -/

/-- What `_run_code` captures from a completed child process.  The
`start_time`/`end_time` wall-clock stamps are dropped; `execution_time` is
kept abstract in seconds. -/
structure RunRes where
  return_code : Int
  stdout : String
  stderr : String
  execution_time : Nat
deriving DecidableEq

/-- The three ways `subprocess.run` can come back inside `_run_code`. -/
inductive RunOutcome where
  | completed (r : RunRes)
  | timeout
  | failed (msg : String)
deriving DecidableEq

/-- `_run_code`: a completed child is returned as captured; a
`TimeoutExpired` is re-raised as the fixed timeout message; any other
launch exception propagates. -/
def run_code (cfg : Config) (outcome : RunOutcome) : Except String RunRes :=
  match outcome with
  | .completed r => .ok r
  | .timeout => .error ("実行タイムアウト（" ++ toString cfg.CODE_TIMEOUT ++ "秒）")
  | .failed msg => .error msg

/-- One file discovered by `os.walk` under the output directory. -/
structure FileMeta where
  name : String
  size : Nat
  modified : String
deriving DecidableEq

/-- The `ArtifactInfo` dictionary built per discovered file. -/
structure ArtifactInfo where
  path : String
  name : String
  size : Nat
  modified : String
  type : String
deriving DecidableEq

/-- The extension part of `os.path.splitext` for a plain file name (the
names delivered by `os.walk` contain no path separator): the suffix from the
last dot, unless every character before that dot is itself a dot. -/
def splitextExt (s : List Char) : List Char :=
  if s.contains '.' then
    let revTail := s.reverse.takeWhile (fun x => x ≠ '.')
    let pre := s.take (s.length - revTail.length - 1)
    if pre.all (fun x => x = '.') then [] else '.' :: revTail.reverse
  else []

/-- The fixed extension table of `_get_file_type`. -/
def type_mapping : List (String × String) :=
  [ (".csv", "data"),
    (".json", "data"),
    (".png", "image"),
    (".jpg", "image"),
    (".jpeg", "image"),
    (".pdf", "document"),
    (".txt", "text"),
    (".html", "html") ]

/-- `_get_file_type`: the extension, lowered, looked up in the fixed
mapping, with "unknown" as the fallback. -/
def get_file_type (filename : String) : String :=
  match type_mapping.lookup (String.mk ((splitextExt filename.data).map Char.toLower)) with
  | some t => t
  | none => "unknown"

/-- `_find_generated_files`: one `ArtifactInfo` per file discovered under
the output directory, the type inferred purely from the file name. -/
def find_generated_files (output_path : String) (discovered : List FileMeta) :
    List ArtifactInfo :=
  discovered.map (fun f =>
    { path := output_path ++ "/" ++ f.name,
      name := f.name,
      size := f.size,
      modified := f.modified,
      type := get_file_type f.name })

/-- The classified error of `_parse_error_output`. -/
structure ErrorInfo where
  type : String
  message : String
  suggestions : List String
deriving DecidableEq

/-- Python `pat in s` on strings. -/
def containsStr (s pat : String) : Bool := containsSub s.data pat.data

/-- `_parse_error_output`: the first matching pattern of the fixed taxonomy
wins (the source iterates the dict in insertion order and breaks); the
message always carries the full standard-error text. -/
def parse_error_output (stderr : String) : ErrorInfo :=
  if containsStr stderr "ModuleNotFoundError" then
    { type := "missing_module", message := stderr,
      suggestions := ["必要なライブラリをインストールしてください"] }
  else if containsStr stderr "FileNotFoundError" then
    { type := "missing_file", message := stderr,
      suggestions := ["データファイルのパスを確認してください"] }
  else if containsStr stderr "KeyError" then
    { type := "missing_column", message := stderr,
      suggestions := ["指定された列名がデータに存在するか確認してください"] }
  else if containsStr stderr "ValueError" then
    { type := "value_error", message := stderr,
      suggestions := ["データの形式や値の範囲を確認してください"] }
  else
    { type := "unknown", message := stderr, suggestions := [] }

/-- Python `str.strip()` (whitespace at both ends). -/
def pyStrip (s : String) : String :=
  String.mk ((s.data.dropWhile Char.isWhitespace).reverse.dropWhile Char.isWhitespace).reverse

/-- Python `str.lower()` restricted to ASCII case (the keywords below only
contain ASCII letters, digits and Japanese, for which this agrees). -/
def pyLower (s : String) : String :=
  String.mk (s.data.map Char.toLower)

/-- The heuristic output digest of `_extract_output_summary`:
`data_info` holds at most the one key "size" (the last matching line wins). -/
structure OutputSummary where
  key_metrics : List String
  data_info_size : Option String
  warnings : List String
deriving DecidableEq

/-- One line of `_extract_output_summary`'s loop. -/
def summarize_line (acc : OutputSummary) (raw : String) : OutputSummary :=
  let line := pyStrip raw
  if ["r²", "r2", "rmse", "シルエット", "p値", "p-value"].any
      (fun kw => containsStr (pyLower line) kw) then
    { acc with key_metrics := acc.key_metrics ++ [line] }
  else if containsStr line "データサイズ" || containsStr line "shape" then
    { acc with data_info_size := some line }
  else if containsStr line "警告" || containsStr (pyLower line) "warning" then
    { acc with warnings := acc.warnings ++ [line] }
  else acc

/-- `_extract_output_summary`. -/
def extract_output_summary (stdout : String) : OutputSummary :=
  (stdout.splitOn "\n").foldl summarize_line
    { key_metrics := [], data_info_size := none, warnings := [] }

/-- The dictionary built by `_process_execution_result` (the `timestamp`
wall-clock stamp is dropped). -/
structure ProcessedResult where
  success : Bool
  execution_time : Nat
  output_summary : OutputSummary
  generated_files : List ArtifactInfo
  stdout : String
  stderr : Option String
  error_info : Option ErrorInfo
  method_id : String
  method_name : String
deriving DecidableEq

/-- The method_id/method_name metadata `execute` reads from the generated
code dictionary. -/
structure CodeInfo where
  method_id : String
  method_name : String
deriving DecidableEq

/-- `_process_execution_result`: success is exit status zero, strictly; the
error classification is attached only on failure; `discovered` is what the
output-directory walk returns at this point. -/
def process_execution_result (cfg : Config) (result : RunRes) (code_info : CodeInfo)
    (discovered : List FileMeta) : ProcessedResult :=
  let success := result.return_code = 0
  { success := success,
    execution_time := result.execution_time,
    output_summary := extract_output_summary result.stdout,
    generated_files := find_generated_files cfg.OUTPUT_PATH discovered,
    stdout := result.stdout,
    stderr := if result.stderr = "" then none else some result.stderr,
    error_info := if success then none else some (parse_error_output result.stderr),
    method_id := code_info.method_id,
    method_name := code_info.method_name }

/-- The wrapper built by `_prepare_full_code`, run in the child process: the
user code text is handed to `exec` inside `try`; on an exception the message
is printed to standard output and `traceback.print_exc()` writes the
traceback to standard error, after which the script falls off the end, so
the child always exits with status 0.  A user run is its printed output plus
either normal completion or a raised exception. -/
structure UserRun where
  printed : String
  outcome : Except String Unit

/-- The child-process behaviour of the wrapped code. -/
def wrapper_run (u : UserRun) : RunRes :=
  { return_code := 0,
    stdout := "=== 実行開始 ===\n" ++ u.printed ++
      (match u.outcome with
       | .ok _ => "=== 実行完了 ===\n"
       | .error e => "実行エラー: " ++ e ++ "\n"),
    stderr := match u.outcome with
      | .ok _ => ""
      | .error e => "Traceback (most recent call last):\n" ++ e ++ "\n",
    execution_time := 0 }

/-- The modelled filesystem: the existing file paths and directory paths. -/
structure FS where
  files : List String
  dirs : List String
deriving DecidableEq

/-- `os.makedirs(d, exist_ok=True)` for one directory level. -/
def fsAddDir (fs : FS) (d : String) : FS :=
  if d ∈ fs.dirs then fs else { fs with dirs := fs.dirs ++ [d] }

/-- `open(p, "w")`: create the file (or truncate an existing one). -/
def fsAddFile (fs : FS) (p : String) : FS :=
  if p ∈ fs.files then fs else { fs with files := fs.files ++ [p] }

/-- Whether path `p` lies strictly under directory `d`. -/
def isUnder (d p : String) : Bool := (d ++ "/").data.isPrefixOf p.data

/-- The per-execution directory `EXECUTION_PATH/<execution_id>`. -/
def execution_dir (cfg : Config) (execution_id : String) : String :=
  cfg.EXECUTION_PATH ++ "/" ++ execution_id

/-- The materialized code file `EXECUTION_PATH/<id>/<id>.py`. -/
def code_file_path (cfg : Config) (execution_id : String) : String :=
  execution_dir cfg execution_id ++ "/" ++ execution_id ++ ".py"

/-- The directory part of a path (`os.path.dirname`). -/
def dirnameStr (p : String) : String :=
  if '/' ∈ p.data then
    String.mk (p.data.reverse.dropWhile (fun c => c ≠ '/')).tail.reverse
  else ""

/-- `_cleanup_temp_files`: remove the code file if it exists, then remove
its containing directory when nothing is left inside it. -/
def cleanup_temp_files (fs : FS) (p : String) : FS :=
  if p ∈ fs.files then
    if dirnameStr p ∈ fs.dirs ∧
        (fs.files.filter (fun f => f ≠ p)).all (fun f => !isUnder (dirnameStr p) f) ∧
        fs.dirs.all (fun f => !isUnder (dirnameStr p) f) then
      { files := fs.files.filter (fun f => f ≠ p),
        dirs := fs.dirs.filter (fun f => f ≠ dirnameStr p) }
    else { fs with files := fs.files.filter (fun f => f ≠ p) }
  else fs

/-- One compact entry of the execution ledger. -/
structure HistRecord where
  execution_id : String
  method_id : String
  method_name : String
  success : Bool
  execution_time : Nat
deriving DecidableEq

/-- What `execute` returns: the processed result on a completed run, or the
error dictionary built in the `except` arm. -/
inductive ExecReturn where
  | ok (r : ProcessedResult)
  | err (execution_id : String) (error : String)
deriving DecidableEq

/-- The ledger state of the executor object. -/
structure ExecState where
  execution_history : List HistRecord
deriving DecidableEq

/-- `_record_execution`: append the compact summary and persist the whole
ledger by rewriting `OUTPUT_PATH/execution_history.json`. -/
def record_execution (cfg : Config) (execution_id : String) (code_info : CodeInfo)
    (success : Bool) (execution_time : Nat) (st : ExecState) (fs : FS) :
    ExecState × FS :=
  ({ execution_history := st.execution_history ++
      [{ execution_id := execution_id, method_id := code_info.method_id,
         method_name := code_info.method_name, success := success,
         execution_time := execution_time }] },
   fsAddFile fs (cfg.OUTPUT_PATH ++ "/execution_history.json"))

/-- `CodeExecutor.execute`: prepare the environment, materialize the code
file, then `try` run/process/record, `except` build and record the error
dictionary, `finally` clean the temporary file up.  `execution_id` is the
time-derived identifier, `outcome` the child-process behaviour, and
`discovered` the output-directory contents seen by the artifact walk. -/
def execute (cfg : Config) (execution_id : String) (outcome : RunOutcome)
    (code_info : CodeInfo) (discovered : List FileMeta) (st : ExecState) (fs0 : FS) :
    ExecReturn × ExecState × FS :=
  let fs1 := fsAddDir (fsAddDir fs0 cfg.OUTPUT_PATH) cfg.DATA_PATH
  let fs2 := fsAddFile (fsAddDir fs1 (execution_dir cfg execution_id))
    (code_file_path cfg execution_id)
  let body : ExecReturn × ExecState × FS :=
    match run_code cfg outcome with
    | .ok r =>
      let pr := process_execution_result cfg r code_info discovered
      let (st2, fs3) := record_execution cfg execution_id code_info pr.success
        pr.execution_time st fs2
      (.ok pr, st2, fs3)
    | .error e =>
      let (st2, fs3) := record_execution cfg execution_id code_info false 0 st fs2
      (.err execution_id e, st2, fs3)
  (body.1, body.2.1, cleanup_temp_files body.2.2 (code_file_path cfg execution_id))


/-! ## Orchestrator (`core/orchestrator.py`)

The collaborating modules (intent parsing, knowledge retrieval, planning,
per-step execution, interpretation, response composition) are parameters of
the model: each is a function that either returns a value or raises (an
`Except String`), so the orchestrator's control flow is stated for every
possible collaborator behaviour — in particular for every plan the planner
can produce and for every way a step execution can fail.  The third
component of the result is the list of steps actually handed to
`execute_analysis_step`, recorded so that non-execution can be stated. -/

/-- One entry of a session's accumulated `execution_results` /
the per-request results list: either the dictionary returned by
`execute_analysis_step`, or the error record built in the loop's
`except` arm (`step_id`, `status="error"`, `error=str(e)`). -/
inductive ExecOutcome (Res : Type) where
  | ok (r : Res)
  | errRec (step_id : String) (error : String)
deriving DecidableEq

/-- A session dictionary.  `created_at` is dropped (wall clock);
`context` coarsely records the successive `update` calls. -/
structure Session (Intent Step Res : Type) where
  current_step : Nat
  analysis_plan : List Step
  execution_results : List Res
  context : List Intent
deriving DecidableEq

/-- The orchestrator's mutable state: the session map and the analysis
history (each history entry keeps the user input, session id and
response). -/
structure OrchState (Intent Step Res Resp : Type) where
  session_state : List (String × Session Intent Step Res)
  analysis_history : List (String × String × Resp)
deriving DecidableEq

/-- The collaborator behaviours consumed by `process_user_input`. -/
structure OrchEnv (Intent Kn Step Res Interp Resp : Type) where
  parse : String → Except String Intent
  rag_search : Intent → Except String Kn
  plan : Intent → Kn → Except String (List Step)
  exec_step : Step → String → Except String Res
  step_id_of : Step → Option String
  interpret : List (ExecOutcome Res) → Kn → Except String Interp
  respond : String → Intent → List (ExecOutcome Res) → Interp → Except String Resp

/-- The envelope returned by `process_user_input`. -/
inductive Envelope (Res Interp Resp : Type) where
  | success (session_id : String) (response : Resp)
      (execution_results : List (ExecOutcome Res)) (interpretation : Interp)
  | error (msg : String) (session_id : String)
deriving DecidableEq

/-- The "status" field of the envelope. -/
def Envelope.status {Res Interp Resp : Type} : Envelope Res Interp Resp → String
  | .success _ _ _ _ => "success"
  | .error _ _ => "error"

/-- Dictionary lookup in the session map. -/
def lookupSession {Intent Step Res Resp : Type}
    (st : OrchState Intent Step Res Resp) (sid : String) :
    Option (Session Intent Step Res) :=
  st.session_state.lookup sid

/-- In-place overwrite of a session entry. -/
def setSession {Intent Step Res Resp : Type}
    (st : OrchState Intent Step Res Resp) (sid : String)
    (sess : Session Intent Step Res) : OrchState Intent Step Res Resp :=
  { st with session_state :=
      st.session_state.map (fun kv => if kv.1 = sid then (sid, sess) else kv) }

/-- `start_session` with an explicit id: install the fresh session entry. -/
def start_session {Intent Step Res Resp : Type}
    (st : OrchState Intent Step Res Resp) (sid : String) :
    OrchState Intent Step Res Resp :=
  if (st.session_state.lookup sid).isSome then
    setSession st sid { current_step := 0, analysis_plan := [], execution_results := [], context := [] }
  else
    { st with session_state := st.session_state ++
        [(sid, { current_step := 0, analysis_plan := [], execution_results := [], context := [] })] }

/-- Append one successful step result to the session's stored
`execution_results`.  The loop only runs after the plan was stored into the
session, so the entry is present whenever this is reached; an absent entry
is left alone. -/
def appendSessionResult {Intent Step Res Resp : Type}
    (st : OrchState Intent Step Res Resp) (sid : String) (r : Res) :
    OrchState Intent Step Res Resp :=
  match lookupSession st sid with
  | some sess => setSession st sid { sess with execution_results := sess.execution_results ++ [r] }
  | none => st

/-- The per-step loop of `process_user_input`: each step is executed inside
its own `try`; a raised exception is logged and converted to an error
record, and the loop continues with the next step either way.  Successful
results are also appended to the session's stored results.  The third
component lists the steps that were handed to `execute_analysis_step`. -/
def runLoop {Intent Kn Step Res Interp Resp : Type}
    (env : OrchEnv Intent Kn Step Res Interp Resp) (sid : String)
    (st : OrchState Intent Step Res Resp) :
    List Step → List (ExecOutcome Res) × OrchState Intent Step Res Resp × List Step
  | [] => ([], st, [])
  | step :: rest =>
    match env.exec_step step sid with
    | .ok r =>
      let rec1 := runLoop env sid (appendSessionResult st sid r) rest
      (.ok r :: rec1.1, rec1.2.1, step :: rec1.2.2)
    | .error e =>
      let rec1 := runLoop env sid st rest
      (.errRec ((env.step_id_of step).getD "unknown") e :: rec1.1, rec1.2.1, step :: rec1.2.2)

/-- `str(KeyError(sid))`: Python renders the missing key in quotes. -/
def keyErrorMsg (sid : String) : String := "'" ++ sid ++ "'"

/-- `process_user_input`: parse → retrieve → plan → store the plan into the
session (a missing session raises `KeyError` here) → run every step → 
interpret → respond → append the history entry and return the success
envelope.  Any exception escaping the sequence is caught once and converted
to the error envelope; state changes made before the exception are kept. -/
def process_user_input {Intent Kn Step Res Interp Resp : Type}
    (env : OrchEnv Intent Kn Step Res Interp Resp)
    (st0 : OrchState Intent Step Res Resp) (user_input sid : String) :
    Envelope Res Interp Resp × OrchState Intent Step Res Resp × List Step :=
  match env.parse user_input with
  | .error e => (.error e sid, st0, [])
  | .ok intent =>
    match env.rag_search intent with
    | .error e => (.error e sid, st0, [])
    | .ok kn =>
      match env.plan intent kn with
      | .error e => (.error e sid, st0, [])
      | .ok analysis_plan =>
        match lookupSession st0 sid with
        | none => (.error (keyErrorMsg sid) sid, st0, [])
        | some sess =>
          let st1 := setSession st0 sid { sess with analysis_plan := analysis_plan }
          let st2 := match lookupSession st1 sid with
            | some sess1 => setSession st1 sid { sess1 with context := sess1.context ++ [intent] }
            | none => st1
          let looped := runLoop env sid st2 analysis_plan
          match env.interpret looped.1 kn with
          | .error e => (.error e sid, looped.2.1, looped.2.2)
          | .ok interp =>
            match env.respond user_input intent looped.1 interp with
            | .error e => (.error e sid, looped.2.1, looped.2.2)
            | .ok resp =>
              let st4 := { looped.2.1 with analysis_history :=
                looped.2.1.analysis_history ++ [(user_input, sid, resp)] }
              (.success sid resp looped.1 interp, st4, looped.2.2)

/-- The outcome the loop records for one step: the executor's result, or the
error record recovered from its exception. -/
def stepOutcome {Intent Kn Step Res Interp Resp : Type}
    (env : OrchEnv Intent Kn Step Res Interp Resp) (sid : String) (step : Step) :
    ExecOutcome Res :=
  match env.exec_step step sid with
  | .ok r => .ok r
  | .error e => .errRec ((env.step_id_of step).getD "unknown") e


/-- A concrete collaborator environment for exercising the orchestrator
model: a fixed two-step plan whose first step succeeds and whose second
step raises. -/
def sampleEnv : OrchEnv String String String String String String :=
  { parse := fun _ => Except.ok "intent",
    rag_search := fun _ => Except.ok "kn",
    plan := fun _ _ => Except.ok ["s1", "s2"],
    exec_step := fun s _ => if s = "s1" then Except.ok "r1" else Except.error "boom",
    step_id_of := fun s => some s,
    interpret := fun _ _ => Except.ok "interp",
    respond := fun _ _ _ _ => Except.ok "resp" }

/-- An orchestrator state holding the one session "sess". -/
def sampleState : OrchState String String String String :=
  { session_state :=
      [("sess", { current_step := 0, analysis_plan := [], execution_results := [],
                  context := [] })],
    analysis_history := [] }

/-- An orchestrator state with no session at all. -/
def emptyState : OrchState String String String String :=
  { session_state := [], analysis_history := [] }

/-! ## Lemmas: plan deduplication and post-processing -/

theorem removeDupGo_sublist (l : List PlanStep) :
    ∀ seen, (removeDupGo seen l).Sublist l := by
  induction l with
  | nil => intro seen; simp [removeDupGo]
  | cons st rest ih =>
    intro seen
    by_cases h : st.method_id ∈ seen
    · simp only [removeDupGo, if_pos h]
      exact (ih seen).cons st
    · simp only [removeDupGo, if_neg h]
      exact (ih (st.method_id :: seen)).cons₂ st

theorem removeDupGo_methods_nodup (l : List PlanStep) :
    ∀ seen, ((removeDupGo seen l).map (fun st => st.method_id)).Nodup ∧
      ∀ m ∈ (removeDupGo seen l).map (fun st => st.method_id), m ∉ seen := by
  induction l with
  | nil => intro seen; simp [removeDupGo]
  | cons st rest ih =>
    intro seen
    by_cases h : st.method_id ∈ seen
    · simpa only [removeDupGo, if_pos h] using ih seen
    · simp only [removeDupGo, if_neg h, List.map_cons, List.nodup_cons, List.mem_cons]
      refine ⟨⟨?_, (ih (st.method_id :: seen)).1⟩, ?_⟩
      · intro hmem
        exact ((ih (st.method_id :: seen)).2 _ hmem) (List.mem_cons_self _ _)
      · rintro m (rfl | hmem)
        · exact h
        · intro hs
          exact ((ih (st.method_id :: seen)).2 _ hmem) (List.mem_cons_of_mem _ hs)

theorem removeDupGo_keeps_first (l : List PlanStep) :
    ∀ seen st, l.find? (fun s => s.method_id == st.method_id) = some st →
      st.method_id ∉ seen → st ∈ removeDupGo seen l := by
  induction l with
  | nil => intro seen st h _; simp [List.find?] at h
  | cons hd rest ih =>
    intro seen st hfind hseen
    by_cases hhd : hd.method_id == st.method_id
    · rw [@List.find?_cons_of_pos _ (fun s => s.method_id == st.method_id) hd rest hhd] at hfind
      injection hfind with he
      subst he
      simp only [removeDupGo, if_neg hseen]
      exact List.mem_cons_self _ _
    · rw [@List.find?_cons_of_neg _ (fun s => s.method_id == st.method_id) hd rest (by simpa using hhd)] at hfind
      by_cases hs : hd.method_id ∈ seen
      · simp only [removeDupGo, if_pos hs]
        exact ih seen st hfind hseen
      · simp only [removeDupGo, if_neg hs]
        refine List.mem_cons_of_mem _ (ih _ st hfind ?_)
        intro hc
        rcases List.mem_cons.mp hc with he | hm
        · exact hhd (by simp [he])
        · exact hseen hm

theorem remove_duplicates_ne_nil (st : PlanStep) (rest : List PlanStep) :
    remove_duplicates (st :: rest) ≠ [] := by
  simp [remove_duplicates, removeDupGo]

theorem validate_dependencies_step_ids (p : List PlanStep) :
    (validate_dependencies p).map (fun st => st.step_id) = p.map (fun st => st.step_id) := by
  simp [validate_dependencies, List.map_map, Function.comp]

theorem validate_dependencies_method_ids (p : List PlanStep) :
    (validate_dependencies p).map (fun st => st.method_id) = p.map (fun st => st.method_id) := by
  simp [validate_dependencies, List.map_map, Function.comp]

theorem validate_dependencies_ne_nil (p : List PlanStep) (h : p ≠ []) :
    validate_dependencies p ≠ [] := by
  simpa [validate_dependencies] using h

theorem assignOrder_step_ids (l : List PlanStep) :
    ∀ i, (assignOrder i l).map (fun st => st.step_id) = l.map (fun st => st.step_id) := by
  induction l with
  | nil => intro i; simp [assignOrder]
  | cons st rest ih => intro i; simp [assignOrder, ih]

theorem assignOrder_method_ids (l : List PlanStep) :
    ∀ i, (assignOrder i l).map (fun st => st.method_id) = l.map (fun st => st.method_id) := by
  induction l with
  | nil => intro i; simp [assignOrder]
  | cons st rest ih => intro i; simp [assignOrder, ih]

theorem assignOrder_ne_nil (l : List PlanStep) (i : Nat) (h : l ≠ []) :
    assignOrder i l ≠ [] := by
  cases l with
  | nil => exact absurd rfl h
  | cons st rest => simp [assignOrder]

theorem optimize_plan_wellformed (p : List PlanStep) (hne : p ≠ [])
    (hids : (p.map (fun st => st.step_id)).Nodup) :
    optimize_plan p ≠ [] ∧
    ((optimize_plan p).map (fun st => st.step_id)).Nodup ∧
    ((optimize_plan p).map (fun st => st.method_id)).Nodup := by
  have hvne : validate_dependencies p ≠ [] := validate_dependencies_ne_nil p hne
  have hrne : remove_duplicates (validate_dependencies p) ≠ [] := by
    cases hv : validate_dependencies p with
    | nil => exact absurd hv hvne
    | cons st rest => exact remove_duplicates_ne_nil st rest
  refine ⟨assignOrder_ne_nil _ 0 hrne, ?_, ?_⟩
  · rw [optimize_plan, assignOrder_step_ids]
    have hsub : ((remove_duplicates (validate_dependencies p)).map (fun st => st.step_id)).Sublist
        ((validate_dependencies p).map (fun st => st.step_id)) :=
      (removeDupGo_sublist _ _).map _
    rw [validate_dependencies_step_ids] at hsub
    exact hids.sublist hsub
  · rw [optimize_plan, assignOrder_method_ids]
    exact (removeDupGo_methods_nodup _ []).1


theorem exploration_skeleton_ok (i : ParsedIntent) (k : Knowledge) :
    create_exploration_plan i k ≠ [] ∧
    ((create_exploration_plan i k).map (fun st => st.step_id)).Nodup := by
  refine ⟨by simp [create_exploration_plan], ?_⟩
  simp only [create_exploration_plan, List.map_cons, List.map_nil]
  decide

theorem descriptive_skeleton_ok (i : ParsedIntent) (k : Knowledge) :
    create_descriptive_stats_plan i k ≠ [] ∧
    ((create_descriptive_stats_plan i k).map (fun st => st.step_id)).Nodup := by
  by_cases hg : pyTruthyOptStr i.groupby_variable
  · refine ⟨by simp [create_descriptive_stats_plan, hg], ?_⟩
    have hm : (create_descriptive_stats_plan i k).map (fun st => st.step_id) =
        ["1", "2", "3"] := by
      simp [create_descriptive_stats_plan, hg]
    rw [hm]; decide
  · refine ⟨by simp [create_descriptive_stats_plan, hg], ?_⟩
    have hm : (create_descriptive_stats_plan i k).map (fun st => st.step_id) =
        ["1", "2"] := by
      simp [create_descriptive_stats_plan, hg]
    rw [hm]; decide

theorem correlation_skeleton_ok (i : ParsedIntent) (k : Knowledge) :
    create_correlation_plan i k ≠ [] ∧
    ((create_correlation_plan i k).map (fun st => st.step_id)).Nodup := by
  refine ⟨by simp [create_correlation_plan], ?_⟩
  simp only [create_correlation_plan, List.map_cons, List.map_nil]
  decide

theorem trend_skeleton_ok (i : ParsedIntent) (k : Knowledge) :
    create_trend_analysis_plan i k ≠ [] ∧
    ((create_trend_analysis_plan i k).map (fun st => st.step_id)).Nodup := by
  refine ⟨by simp [create_trend_analysis_plan], ?_⟩
  simp only [create_trend_analysis_plan, List.map_cons, List.map_nil]
  decide

theorem clustering_skeleton_ok (i : ParsedIntent) (k : Knowledge) :
    create_clustering_plan i k ≠ [] ∧
    ((create_clustering_plan i k).map (fun st => st.step_id)).Nodup := by
  refine ⟨by simp [create_clustering_plan], ?_⟩
  simp only [create_clustering_plan, List.map_cons, List.map_nil]
  decide

theorem regression_skeleton_ok (i : ParsedIntent) (k : Knowledge) :
    create_regression_plan i k ≠ [] ∧
    ((create_regression_plan i k).map (fun st => st.step_id)).Nodup := by
  refine ⟨by simp [create_regression_plan], ?_⟩
  simp only [create_regression_plan, List.map_cons, List.map_nil]
  decide

theorem hypothesis_skeleton_ok (i : ParsedIntent) (k : Knowledge) :
    create_hypothesis_testing_plan i k ≠ [] ∧
    ((create_hypothesis_testing_plan i k).map (fun st => st.step_id)).Nodup := by
  refine ⟨by simp [create_hypothesis_testing_plan], ?_⟩
  simp only [create_hypothesis_testing_plan, List.map_cons, List.map_nil]
  decide

/-- C2: for every parsed intent — any primary-intent tag, the eight
recognized categories as well as unrecognized tags, which fall back to the
exploration skeleton — and every knowledge input, `create_plan` is total
(the embedding is a Lean function, so it cannot raise) and returns a
non-empty plan whose step_ids are pairwise distinct and whose method_ids
contain no duplicates; moreover `_remove_duplicates` always returns a
subsequence with duplicate-free method_ids that contains every step that is
the earliest occurrence of its method_id, i.e. the earliest occurrence of a
duplicated method_id is the one kept. -/
theorem C2_create_plan_wellformed (intent : ParsedIntent) (kn : Knowledge) :
    (create_plan intent kn ≠ [] ∧
     ((create_plan intent kn).map (fun st => st.step_id)).Nodup ∧
     ((create_plan intent kn).map (fun st => st.method_id)).Nodup) ∧
    (∀ q : List PlanStep,
      (remove_duplicates q).Sublist q ∧
      ((remove_duplicates q).map (fun st => st.method_id)).Nodup ∧
      (∀ st ∈ q, q.find? (fun s => s.method_id == st.method_id) = some st →
        st ∈ remove_duplicates q)) := by
  constructor
  · have hgoal : ∀ p : List PlanStep, p ≠ [] → (p.map (fun st => st.step_id)).Nodup →
        optimize_plan p ≠ [] ∧
        ((optimize_plan p).map (fun st => st.step_id)).Nodup ∧
        ((optimize_plan p).map (fun st => st.method_id)).Nodup :=
      fun p => optimize_plan_wellformed p
    simp only [create_plan]
    split_ifs
    · exact hgoal _ (exploration_skeleton_ok intent kn).1 (exploration_skeleton_ok intent kn).2
    · exact hgoal _ (descriptive_skeleton_ok intent kn).1 (descriptive_skeleton_ok intent kn).2
    · exact hgoal _ (correlation_skeleton_ok intent kn).1 (correlation_skeleton_ok intent kn).2
    · exact hgoal _ (trend_skeleton_ok intent kn).1 (trend_skeleton_ok intent kn).2
    · exact hgoal _ (clustering_skeleton_ok intent kn).1 (clustering_skeleton_ok intent kn).2
    · exact hgoal _ (regression_skeleton_ok intent kn).1 (regression_skeleton_ok intent kn).2
    · exact hgoal _ (hypothesis_skeleton_ok intent kn).1 (hypothesis_skeleton_ok intent kn).2
    · exact hgoal _ (exploration_skeleton_ok intent kn).1 (exploration_skeleton_ok intent kn).2
  · intro q
    refine ⟨removeDupGo_sublist q [], (removeDupGo_methods_nodup q []).1, ?_⟩
    intro st _ hfind
    exact removeDupGo_keeps_first q [] st hfind (List.not_mem_nil _)

/-- Witness for C2 at a concrete input: the clustering intent yields a
well-formed plan, and a concrete two-step plan sharing one method_id keeps
its first step after deduplication. -/
theorem C2_create_plan_wellformed_witness :
    (create_plan
        { primary_intent := "clustering", analysis_type := "clustering",
          extracted_variables := [], groupby_variable := none,
          date_columns := [], numeric_columns := [] } [] ≠ []) ∧
    ({ step_id := "1", step_name := "a", task_description := "a", method_id := "m",
       dependencies := [], expected_output := "o" } : PlanStep) ∈
      remove_duplicates
        [ { step_id := "1", step_name := "a", task_description := "a", method_id := "m",
            dependencies := [], expected_output := "o" },
          { step_id := "2", step_name := "b", task_description := "b", method_id := "m",
            dependencies := [], expected_output := "o" } ] := by
  have h := C2_create_plan_wellformed
    { primary_intent := "clustering", analysis_type := "clustering",
      extracted_variables := [], groupby_variable := none,
      date_columns := [], numeric_columns := [] } []
  refine ⟨h.1.1, ?_⟩
  exact (h.2 _).2.2 _ (by decide) (by decide)

/-- C4 (code bug): a step whose dependency list holds two consecutive
invalid references keeps the second one — the removal loop of
`_validate_dependencies` mutates the list it iterates, so Python's cursor
skips the element after each removal.  After `_optimize_plan` the surviving
dependency "y" references no step_id of the returned plan. -/
theorem C4_invalid_dependency_survives :
    (optimize_plan
      [ { step_id := "1", step_name := "s", task_description := "t", method_id := "m",
          dependencies := ["x", "y"], expected_output := "o" } ]).map
        (fun st => st.dependencies) = [["y"]] ∧
    "y" ∉ (optimize_plan
      [ { step_id := "1", step_name := "s", task_description := "t", method_id := "m",
          dependencies := ["x", "y"], expected_output := "o" } ]).map
        (fun st => st.step_id) := by
  constructor
  · decide
  · decide


/-! ## Lemmas: the replace scan -/

theorem pyReplaceF_congr : ∀ f1 f2 (s pat rep : List Char), s.length ≤ f1 → s.length ≤ f2 →
    pyReplaceF f1 s pat rep = pyReplaceF f2 s pat rep := by
  intro f1
  induction f1 with
  | zero =>
    intro f2 s pat rep h1 _
    have hs : s = [] := List.length_eq_zero.mp (Nat.le_zero.mp h1)
    subst hs
    cases f2 <;> rfl
  | succ f ih =>
    intro f2 s pat rep h1 h2
    cases s with
    | nil => cases f2 <;> rfl
    | cons c s2 =>
      cases f2 with
      | zero => simp at h2
      | succ f2p =>
        simp only [pyReplaceF]
        by_cases hp : pat ≠ [] ∧ pat.isPrefixOf (c :: s2)
        · rw [if_pos hp, if_pos hp]
          congr 1
          have hpat : 1 ≤ pat.length := List.length_pos.mpr hp.1
          apply ih
          · simp only [List.length_drop, List.length_cons] at h1 ⊢
            omega
          · simp only [List.length_drop, List.length_cons] at h2 ⊢
            omega
        · rw [if_neg hp, if_neg hp]
          congr 1
          apply ih
          · simp only [List.length_cons] at h1; omega
          · simp only [List.length_cons] at h2; omega

theorem pyReplace_nil (pat rep : List Char) : pyReplace [] pat rep = [] := rfl

theorem pyReplace_cons (c : Char) (s2 pat rep : List Char) :
    pyReplace (c :: s2) pat rep =
      if pat ≠ [] ∧ pat.isPrefixOf (c :: s2) then
        rep ++ pyReplace ((c :: s2).drop pat.length) pat rep
      else c :: pyReplace s2 pat rep := by
  show pyReplaceF (s2.length + 1) (c :: s2) pat rep = _
  simp only [pyReplaceF]
  by_cases hp : pat ≠ [] ∧ pat.isPrefixOf (c :: s2)
  · rw [if_pos hp, if_pos hp]
    congr 1
    apply pyReplaceF_congr
    · have hpat : 1 ≤ pat.length := List.length_pos.mpr hp.1
      simp only [List.length_drop, List.length_cons]
      omega
    · exact Nat.le_refl _
  · rw [if_neg hp, if_neg hp]
    rfl

theorem pyReplace_no_close (s pat rep : List Char) (hpat : '}' ∈ pat) (hs : '}' ∉ s) :
    pyReplace s pat rep = s := by
  induction s with
  | nil => rfl
  | cons c s2 ih =>
    rw [pyReplace_cons]
    have hnp : ¬ (pat ≠ [] ∧ pat.isPrefixOf (c :: s2)) := by
      rintro ⟨-, hp⟩
      have hpre : pat <+: (c :: s2) := List.isPrefixOf_iff_prefix.mp hp
      exact hs (hpre.sublist.subset hpat)
    rw [if_neg hnp]
    congr 1
    exact ih (fun hm => hs (List.mem_cons_of_mem _ hm))

theorem pyReplace_skip (u v p2 rep : List Char) (hu : '{' ∉ u) :
    pyReplace (u ++ v) ('{' :: p2) rep = u ++ pyReplace v ('{' :: p2) rep := by
  induction u with
  | nil => rfl
  | cons c u2 ih =>
    have hc : c ≠ '{' := fun he => hu (he ▸ List.mem_cons_self c u2)
    simp only [List.cons_append]
    rw [pyReplace_cons]
    have hnp : ¬ (('{' :: p2) ≠ [] ∧ ('{' :: p2).isPrefixOf (c :: (u2 ++ v))) := by
      rintro ⟨-, hp⟩
      rcases List.isPrefixOf_iff_prefix.mp hp with ⟨t, ht⟩
      rw [List.cons_append] at ht
      injection ht with h1 _
      exact hc h1.symm
    rw [if_neg hnp]
    rw [ih (fun hm => hu (List.mem_cons_of_mem _ hm))]

theorem pyReplace_at_match (g rest2 rep : List Char) :
    pyReplace (('{' :: (g ++ ['}'])) ++ rest2) ('{' :: (g ++ ['}'])) rep =
      rep ++ pyReplace rest2 ('{' :: (g ++ ['}'])) rep := by
  have hcons : ('{' :: (g ++ ['}'])) ++ rest2 = '{' :: ((g ++ ['}']) ++ rest2) := by simp
  rw [hcons, pyReplace_cons]
  have hp : ('{' :: (g ++ ['}'])) ≠ [] ∧
      ('{' :: (g ++ ['}'])).isPrefixOf ('{' :: ((g ++ ['}']) ++ rest2)) := by
    refine ⟨by simp, List.isPrefixOf_iff_prefix.mpr ⟨rest2, ?_⟩⟩
    simp
  rw [if_pos hp]
  congr 1
  have hd : ('{' :: ((g ++ ['}']) ++ rest2)).drop ('{' :: (g ++ ['}'])).length = rest2 := by
    rw [← hcons]
    exact List.drop_left _ _
  rw [hd]

/-! ## Lemmas: the placeholder scan -/

theorem findallAux_none_cons (c : Char) (rest : List Char) (h : c ≠ '{') :
    findallAux none (c :: rest) = findallAux none rest := by
  simp [findallAux, h]

theorem findallAux_skip (u v : List Char) (h : '{' ∉ u) :
    findallAux none (u ++ v) = findallAux none v := by
  induction u with
  | nil => rfl
  | cons c u2 ih =>
    have hc : c ≠ '{' := fun he => h (he ▸ List.mem_cons_self c u2)
    rw [List.cons_append, findallAux_none_cons _ _ hc]
    exact ih (fun hm => h (List.mem_cons_of_mem _ hm))

theorem findallAux_name (name : List Char) (post : List Char) (hn : '}' ∉ name) :
    ∀ acc, findallAux (some acc) (name ++ '}' :: post) =
      if acc ++ name = [] then findallAux none post
      else (acc ++ name) :: findallAux none post := by
  induction name with
  | nil =>
    intro acc
    simp [findallAux]
  | cons c name2 ih =>
    intro acc
    have hc : c ≠ '}' := fun he => hn (he ▸ List.mem_cons_self c name2)
    have hstep : findallAux (some acc) ((c :: name2) ++ '}' :: post) =
        findallAux (some (acc ++ [c])) (name2 ++ '}' :: post) := by
      simp [findallAux, hc]
    rw [hstep, ih (fun hm => hn (List.mem_cons_of_mem _ hm)) (acc ++ [c])]
    have hne2 : (acc ++ [c]) ++ name2 ≠ [] := by simp
    have hne : acc ++ c :: name2 ≠ [] := by simp
    rw [if_neg hne2, if_neg hne]
    have hassoc : (acc ++ [c]) ++ name2 = acc ++ c :: name2 := by simp
    rw [hassoc]

theorem findallAux_noclose (s : List Char) (h : '}' ∉ s) :
    ∀ acc, findallAux (some acc) s = [] := by
  induction s with
  | nil => intro acc; rfl
  | cons c rest ih =>
    intro acc
    have hc : c ≠ '}' := fun he => h (he ▸ List.mem_cons_self c rest)
    have hstep : findallAux (some acc) (c :: rest) =
        findallAux (some (acc ++ [c])) rest := by
      simp [findallAux, hc]
    rw [hstep]
    exact ih (fun hm => h (List.mem_cons_of_mem _ hm)) _

theorem findallPH_nil : findallPH [] = [] := rfl

theorem findallPH_cons_not (c : Char) (s : List Char) (h : c ≠ '{') :
    findallPH (c :: s) = findallPH s :=
  findallAux_none_cons c s h

theorem findallPH_open (s : List Char) :
    findallPH ('{' :: s) = findallAux (some []) s := by
  simp [findallPH, findallAux]

theorem findallPH_site (name post : List Char) (hn : '}' ∉ name) (hne : name ≠ []) :
    findallPH ('{' :: (name ++ '}' :: post)) = name :: findallPH post := by
  rw [findallPH_open, findallAux_name name post hn []]
  simp [hne, findallPH]

theorem findallPH_noclose (s : List Char) (h : '}' ∉ s) : findallPH s = [] := by
  induction s with
  | nil => rfl
  | cons c rest ih =>
    have hx : '}' ∉ rest := fun hm => h (List.mem_cons_of_mem _ hm)
    by_cases hc : c = '{'
    · subst hc
      rw [findallPH_open]
      exact findallAux_noclose rest hx []
    · rw [findallPH_cons_not c rest hc]
      exact ih hx

theorem findallAux_groups (s : List Char) :
    ∀ st : Option (List Char), (∀ acc, st = some acc → '}' ∉ acc) →
      ∀ g ∈ findallAux st s, '}' ∉ g ∧ g ≠ [] := by
  induction s with
  | nil =>
    intro st hst g hg
    cases st <;> simp [findallAux] at hg
  | cons c rest ih =>
    intro st hst g hg
    cases st with
    | none =>
      by_cases hc : c = '{'
      · subst hc
        simp only [findallAux, if_pos rfl] at hg
        refine ih (some []) ?_ g hg
        intro acc he
        injection he with he2
        subst he2
        simp
      · rw [findallAux_none_cons c rest hc] at hg
        exact ih none (by simp) g hg
    | some acc =>
      have hacc : '}' ∉ acc := hst acc rfl
      by_cases hc : c = '}'
      · subst hc
        simp only [findallAux, if_pos rfl] at hg
        by_cases ha : acc = []
        · rw [if_pos ha] at hg
          exact ih none (by simp) g hg
        · rw [if_neg ha] at hg
          rcases List.mem_cons.mp hg with rfl | hm
          · exact ⟨hacc, ha⟩
          · exact ih none (by simp) g hm
      · simp only [findallAux, if_neg hc] at hg
        refine ih (some (acc ++ [c])) ?_ g hg
        intro acc2 he
        injection he with he2
        subst he2
        simp only [List.mem_append, List.mem_singleton]
        rintro (hm | hm)
        · exact hacc hm
        · exact hc hm.symm

theorem findallPH_groups (s : List Char) : ∀ g ∈ findallPH s, '}' ∉ g ∧ g ≠ [] :=
  findallAux_groups s none (by simp)


theorem first_close_decomp (l : List Char) (h : '}' ∈ l) :
    ∃ u v, l = u ++ '}' :: v ∧ '}' ∉ u := by
  induction l with
  | nil => simp at h
  | cons c rest ih =>
    by_cases hc : c = '}'
    · exact ⟨[], rest, by rw [hc]; rfl, by simp⟩
    · have hr : '}' ∈ rest := by
        rcases List.mem_cons.mp h with he | hm
        · exact absurd he.symm hc
        · exact hm
      rcases ih hr with ⟨u, v, he, hu⟩
      refine ⟨c :: u, v, by rw [he]; rfl, ?_⟩
      intro hm
      rcases List.mem_cons.mp hm with he2 | hm2
      · exact hc he2.symm
      · exact hu hm2

theorem findallPH_ne_of_match : ∀ n (s : List Char), s.length ≤ n →
    (∃ pre name post, s = pre ++ '{' :: (name ++ '}' :: post) ∧ name ≠ [] ∧ '}' ∉ name) →
    (findallPH s ≠ [] ∧ ∀ acc, findallAux (some acc) s ≠ []) := by
  intro n
  induction n with
  | zero =>
    intro s hlen hpat
    rcases hpat with ⟨pre, name, post, he, -, -⟩
    rw [he] at hlen
    simp at hlen
  | succ n ih =>
    intro s hlen hpat
    rcases hpat with ⟨pre, name, post, he, hne, hn⟩
    constructor
    · cases pre with
      | nil =>
        simp only [List.nil_append] at he
        rw [he, findallPH_site name post hn hne]
        simp
      | cons c pre2 =>
        have he2 : s = c :: (pre2 ++ '{' :: (name ++ '}' :: post)) := by rw [he]; rfl
        have hlen2 : (pre2 ++ '{' :: (name ++ '}' :: post)).length ≤ n := by
          rw [he2] at hlen
          simp only [List.length_cons] at hlen
          omega
        by_cases hc : c = '{'
        · rw [he2, hc, findallPH_open]
          exact (ih _ hlen2 ⟨pre2, name, post, rfl, hne, hn⟩).2 []
        · rw [he2, findallPH_cons_not c _ hc]
          exact (ih _ hlen2 ⟨pre2, name, post, rfl, hne, hn⟩).1
    · intro acc
      have hclose : '}' ∈ s := by
        rw [he]
        simp
      rcases first_close_decomp s hclose with ⟨u, v, huv, hu⟩
      rw [huv, findallAux_name u v hu acc]
      by_cases hav : acc ++ u = []
      · rw [if_pos hav]
        rcases List.append_eq_nil.mp hav with ⟨-, hu0⟩
        subst hu0
        cases pre with
        | nil =>
          exfalso
          simp only [List.nil_append] at he
          rw [huv] at he
          simp only [List.nil_append] at he
          injection he with h1 _
          exact absurd h1 (by decide)
        | cons p0 pre2 =>
          have he2 : s = p0 :: (pre2 ++ '{' :: (name ++ '}' :: post)) := by rw [he]; rfl
          rw [huv] at he2
          simp only [List.nil_append] at he2
          injection he2 with h1 h2
          have hlenv : v.length ≤ n := by
            rw [huv] at hlen
            simp only [List.nil_append, List.length_cons] at hlen
            omega
          exact (ih v hlenv ⟨pre2, name, post, h2, hne, hn⟩).1
      · rw [if_neg hav]
        simp

theorem repl_filter : ∀ n (s : List Char), s.length ≤ n → ∀ (g d : List Char),
    g ≠ [] → '{' ∉ g → '}' ∉ g → '{' ∉ d → '}' ∉ d →
    (∀ g2 ∈ findallPH s, '{' ∉ g2) →
    findallPH (pyReplace s ('{' :: (g ++ ['}'])) d) =
      (findallPH s).filter (fun x => x ≠ g) := by
  intro n
  induction n with
  | zero =>
    intro s hlen g d hgne hg1 hg2 hd1 hd2 hgr
    have hs : s = [] := List.length_eq_zero.mp (Nat.le_zero.mp hlen)
    subst hs
    rw [pyReplace_nil]
    rfl
  | succ n ih =>
    intro s hlen g d hgne hg1 hg2 hd1 hd2 hgr
    cases s with
    | nil =>
      rw [pyReplace_nil]
      rfl
    | cons c s2 =>
      by_cases hpre : ('{' :: (g ++ ['}'])).isPrefixOf (c :: s2)
      · rcases List.isPrefixOf_iff_prefix.mp hpre with ⟨rest2, hrw⟩
        have he : c :: s2 = ('{' :: (g ++ ['}'])) ++ rest2 := hrw.symm
        have hshape : ('{' :: (g ++ ['}'])) ++ rest2 = '{' :: (g ++ '}' :: rest2) := by simp
        have hsite : findallPH (c :: s2) = g :: findallPH rest2 := by
          rw [he, hshape, findallPH_site g rest2 hg2 hgne]
        have hgr2 : ∀ g2 ∈ findallPH rest2, '{' ∉ g2 := by
          intro g2 hm
          exact hgr g2 (by rw [hsite]; exact List.mem_cons_of_mem _ hm)
        have hlen2 : rest2.length ≤ n := by
          rw [he] at hlen
          simp only [List.length_append, List.length_cons] at hlen
          omega
        rw [he, pyReplace_at_match g rest2 d]
        rw [show findallPH (d ++ pyReplace rest2 ('{' :: (g ++ ['}'])) d) =
            findallPH (pyReplace rest2 ('{' :: (g ++ ['}'])) d) from
          findallAux_skip d _ hd1]
        rw [ih rest2 hlen2 g d hgne hg1 hg2 hd1 hd2 hgr2]
        rw [hshape, findallPH_site g rest2 hg2 hgne]
        simp
      · have hguard : ¬ (('{' :: (g ++ ['}'])) ≠ [] ∧
            ('{' :: (g ++ ['}'])).isPrefixOf (c :: s2)) := fun hcon => hpre hcon.2
        by_cases hc : c = '{'
        · subst hc
          by_cases hclose : '}' ∈ s2
          · rcases first_close_decomp s2 hclose with ⟨u, v, huv, hu⟩
            by_cases hu0 : u = []
            · subst hu0
              simp only [List.nil_append] at huv
              subst huv
              have hfa : findallPH ('{' :: '}' :: v) = findallPH v := by
                rw [findallPH_open]
                simp [findallAux, findallPH]
              have hgr2 : ∀ g2 ∈ findallPH v, '{' ∉ g2 := by
                intro g2 hm
                exact hgr g2 (by rw [hfa]; exact hm)
              have hlen2 : v.length ≤ n := by
                simp only [List.length_cons] at hlen
                omega
              have hrw1 : pyReplace ('{' :: '}' :: v) ('{' :: (g ++ ['}'])) d =
                  '{' :: pyReplace ('}' :: v) ('{' :: (g ++ ['}'])) d := by
                rw [pyReplace_cons, if_neg hguard]
              have hguard2 : ¬ (('{' :: (g ++ ['}'])) ≠ [] ∧
                  ('{' :: (g ++ ['}'])).isPrefixOf ('}' :: v)) := by
                rintro ⟨-, hp⟩
                rcases List.isPrefixOf_iff_prefix.mp hp with ⟨t, ht⟩
                injection ht with h1 _
                exact absurd h1 (by decide)
              have hrw2 : pyReplace ('}' :: v) ('{' :: (g ++ ['}'])) d =
                  '}' :: pyReplace v ('{' :: (g ++ ['}'])) d := by
                rw [pyReplace_cons, if_neg hguard2]
              rw [hrw1, hrw2]
              have hfa2 : findallPH ('{' :: '}' :: pyReplace v ('{' :: (g ++ ['}'])) d) =
                  findallPH (pyReplace v ('{' :: (g ++ ['}'])) d) := by
                rw [findallPH_open]
                simp [findallAux, findallPH]
              rw [hfa2, ih v hlen2 g d hgne hg1 hg2 hd1 hd2 hgr2, hfa]
            · have hshape : ('{' : Char) :: s2 = '{' :: (u ++ '}' :: v) := by rw [huv]
              have hsite : findallPH ('{' :: s2) = u :: findallPH v := by
                rw [hshape, findallPH_site u v hu hu0]
              have hub : '{' ∉ u := hgr u (by rw [hsite]; exact List.mem_cons_self _ _)
              have hune : u ≠ g := by
                intro he
                subst he
                apply hpre
                rw [huv]
                refine List.isPrefixOf_iff_prefix.mpr ⟨v, ?_⟩
                simp
              have hgr2 : ∀ g2 ∈ findallPH v, '{' ∉ g2 := by
                intro g2 hm
                exact hgr g2 (by rw [hsite]; exact List.mem_cons_of_mem _ hm)
              have hlen2 : v.length ≤ n := by
                rw [hshape] at hlen
                simp only [List.length_cons, List.length_append] at hlen
                omega
              have hrw1 : pyReplace ('{' :: s2) ('{' :: (g ++ ['}'])) d =
                  '{' :: pyReplace s2 ('{' :: (g ++ ['}'])) d := by
                rw [pyReplace_cons, if_neg hguard]
              have hguard2 : ¬ (('{' :: (g ++ ['}'])) ≠ [] ∧
                  ('{' :: (g ++ ['}'])).isPrefixOf ('}' :: v)) := by
                rintro ⟨-, hp⟩
                rcases List.isPrefixOf_iff_prefix.mp hp with ⟨t, ht⟩
                injection ht with h1 _
                exact absurd h1 (by decide)
              have hrw2 : pyReplace s2 ('{' :: (g ++ ['}'])) d =
                  u ++ '}' :: pyReplace v ('{' :: (g ++ ['}'])) d := by
                rw [huv, pyReplace_skip u ('}' :: v) (g ++ ['}']) d hub]
                rw [pyReplace_cons, if_neg hguard2]
              rw [hrw1, hrw2]
              rw [findallPH_site u (pyReplace v ('{' :: (g ++ ['}'])) d) hu hu0]
              rw [ih v hlen2 g d hgne hg1 hg2 hd1 hd2 hgr2, hsite]
              simp only [List.filter_cons]
              have hdec : (decide (u ≠ g)) = true := by simp [hune]
              rw [hdec]
              simp
          · have hnos : '}' ∉ ('{' : Char) :: s2 := by
              intro hm
              rcases List.mem_cons.mp hm with he | hm2
              · exact absurd he (by decide)
              · exact hclose hm2
            rw [pyReplace_no_close _ _ _ (by simp) hnos]
            rw [findallPH_noclose _ hnos]
            rfl
        · have hrw1 : pyReplace (c :: s2) ('{' :: (g ++ ['}'])) d =
              c :: pyReplace s2 ('{' :: (g ++ ['}'])) d := by
            rw [pyReplace_cons, if_neg hguard]
          have hfa : findallPH (c :: s2) = findallPH s2 := findallPH_cons_not c s2 hc
          have hgr2 : ∀ g2 ∈ findallPH s2, '{' ∉ g2 := by
            intro g2 hm
            exact hgr g2 (by rw [hfa]; exact hm)
          have hlen2 : s2.length ≤ n := by
            simp only [List.length_cons] at hlen
            omega
          rw [hrw1, findallPH_cons_not c _ hc, ih s2 hlen2 g d hgne hg1 hg2 hd1 hd2 hgr2, hfa]

theorem fold_replace (gs : List (List Char)) :
    ∀ (s : List Char) (dflt : List Char → List Char),
    (∀ g2 ∈ findallPH s, g2 ∈ gs) →
    (∀ g ∈ gs, g ≠ [] ∧ '{' ∉ g ∧ '}' ∉ g) →
    (∀ g ∈ gs, '{' ∉ dflt g ∧ '}' ∉ dflt g) →
    findallPH (gs.foldl (fun c m => pyReplace c ('{' :: (m ++ ['}'])) (dflt m)) s) = [] := by
  induction gs with
  | nil =>
    intro s dflt h1 _ _
    simp only [List.foldl_nil]
    exact List.eq_nil_iff_forall_not_mem.mpr (fun x hx => List.not_mem_nil x (h1 x hx))
  | cons g gs2 ih =>
    intro s dflt h1 h2 hd
    simp only [List.foldl_cons]
    have hgp := h2 g (List.mem_cons_self _ _)
    have hdp := hd g (List.mem_cons_self _ _)
    have hrepl : findallPH (pyReplace s ('{' :: (g ++ ['}'])) (dflt g)) =
        (findallPH s).filter (fun x => x ≠ g) := by
      apply repl_filter s.length s (Nat.le_refl _) g (dflt g) hgp.1 hgp.2.1 hgp.2.2 hdp.1 hdp.2
      intro g2 hm
      exact (h2 g2 (h1 g2 hm)).2.1
    apply ih
    · intro g2 hm
      rw [hrepl] at hm
      rcases List.mem_filter.mp hm with ⟨hmem, hneq⟩
      have hne : g2 ≠ g := by simpa using hneq
      rcases List.mem_cons.mp (h1 g2 hmem) with he | hgm
      · exact absurd he hne
      · exact hgm
    · intro g2 hm
      exact h2 g2 (List.mem_cons_of_mem _ hm)
    · intro g2 hm
      exact hd g2 (List.mem_cons_of_mem _ hm)


theorem lookup_mem_values (l : List (String × String)) :
    ∀ (k v : String), l.lookup k = some v → v ∈ l.map Prod.snd := by
  induction l with
  | nil => intro k v h; simp [List.lookup] at h
  | cons kv rest ih =>
    intro k v h
    cases kv with
    | mk a b =>
      simp only [List.lookup] at h
      split at h
      · injection h with he
        subst he
        exact List.mem_cons_self _ _
      · exact List.mem_cons_of_mem _ (ih k v h)

theorem default_value_brace_free (cfg : Config)
    (hcfg : '{' ∉ cfg.OUTPUT_PATH.data ∧ '}' ∉ cfg.OUTPUT_PATH.data)
    (g : List Char) (hg1 : '{' ∉ g) (hg2 : '}' ∉ g) :
    '{' ∉ get_default_value cfg g ∧ '}' ∉ get_default_value cfg g := by
  cases hl : (default_values cfg).lookup (String.mk g) with
  | none =>
    have hgd : get_default_value cfg g = '\'' :: (g ++ ['\'']) := by
      rw [get_default_value, hl]
    rw [hgd]
    constructor
    · intro hm
      rcases List.mem_cons.mp hm with he | hm2
      · exact absurd he (by decide)
      · rcases List.mem_append.mp hm2 with hm3 | hm3
        · exact hg1 hm3
        · rcases List.mem_singleton.mp hm3 with he2
          exact absurd he2 (by decide)
    · intro hm
      rcases List.mem_cons.mp hm with he | hm2
      · exact absurd he (by decide)
      · rcases List.mem_append.mp hm2 with hm3 | hm3
        · exact hg2 hm3
        · rcases List.mem_singleton.mp hm3 with he2
          exact absurd he2 (by decide)
  | some v =>
    have hgd : get_default_value cfg g = v.data := by
      rw [get_default_value, hl]
    rw [hgd]
    have hv := lookup_mem_values (default_values cfg) (String.mk g) v hl
    simp only [default_values, List.map_cons, List.map_nil, List.mem_cons,
      List.not_mem_nil, or_false] at hv
    rcases hv with rfl|rfl|rfl|rfl|rfl|rfl|rfl|rfl|rfl|rfl|rfl|rfl|rfl|rfl|rfl|rfl
    · exact ⟨by decide, by decide⟩
    · exact hcfg
    · exact ⟨by decide, by decide⟩
    · exact ⟨by decide, by decide⟩
    · exact ⟨by decide, by decide⟩
    · exact ⟨by decide, by decide⟩
    · exact ⟨by decide, by decide⟩
    · exact ⟨by decide, by decide⟩
    · exact ⟨by decide, by decide⟩
    · exact ⟨by decide, by decide⟩
    · exact ⟨by decide, by decide⟩
    · exact ⟨by decide, by decide⟩
    · exact ⟨by decide, by decide⟩
    · exact ⟨by decide, by decide⟩
    · exact ⟨by decide, by decide⟩
    · exact ⟨by decide, by decide⟩

theorem handle_undefined_clean (cfg : Config)
    (hcfg : '{' ∉ cfg.OUTPUT_PATH.data ∧ '}' ∉ cfg.OUTPUT_PATH.data)
    (code : List Char) (hg : ∀ g ∈ findallPH code, '{' ∉ g) :
    findallPH (handle_undefined_placeholders cfg code) = [] := by
  apply fold_replace (findallPH code) code (get_default_value cfg)
  · exact fun g2 h => h
  · intro g hgm
    rcases findallPH_groups code g hgm with ⟨h1, h2⟩
    exact ⟨h2, hg g hgm, h1⟩
  · intro g hgm
    rcases findallPH_groups code g hgm with ⟨h1, h2⟩
    exact default_value_brace_free cfg hcfg g (hg g hgm) h1

theorem substitute_loop_id (params : List (String × String)) :
    ∀ t : List Char, findallPH t = [] →
    (∀ kv ∈ params, kv.1.data ≠ [] ∧ '}' ∉ kv.1.data) →
    substitute_loop params t = t := by
  induction params with
  | nil => intro t _ _; rfl
  | cons kv ps ih =>
    intro t ht hk
    have hkv := hk kv (List.mem_cons_self _ _)
    have hcs : containsSub t ('{' :: (kv.1.data ++ ['}'])) = false := by
      by_contra hcc
      have htrue : containsSub t ('{' :: (kv.1.data ++ ['}'])) = true := by
        rcases Bool.eq_false_or_eq_true (containsSub t ('{' :: (kv.1.data ++ ['}']))) with h | h
        · exact h
        · exact absurd h hcc
      have hinf : ('{' :: (kv.1.data ++ ['}'])) <:+: t := of_decide_eq_true htrue
      rcases hinf with ⟨pre, post, hps⟩
      have hmatch : ∃ pre2 name2 post2,
          t = pre2 ++ '{' :: (name2 ++ '}' :: post2) ∧ name2 ≠ [] ∧ '}' ∉ name2 := by
        refine ⟨pre, kv.1.data, post, ?_, hkv.1, hkv.2⟩
        rw [← hps]
        simp
      exact (findallPH_ne_of_match t.length t (Nat.le_refl _) hmatch).1 ht
    have hstep : substitute_loop (kv :: ps) t = substitute_loop ps t := by
      simp only [substitute_loop, List.foldl_cons, hcs]
      rfl
    rw [hstep]
    exact ih t ht (fun kv2 hm => hk kv2 (List.mem_cons_of_mem _ hm))

theorem generate_code_eq (cfg : Config) (step : SelStep) (method : SelMethod) :
    (generate cfg step method).code =
      handle_undefined_placeholders cfg
        (substitute_loop (prepare_parameters cfg step method) method.code_template.data) := by
  rfl

/-- C3 (counterexample): the invariant fails as stated.  For the template
text consisting of a doubly brace-wrapped name (two opening braces, `qq`,
two closing braces), the scanner captures the name together with the inner
opening brace, and the quoted-name fallback then re-introduces an opening
brace, so the synthesized code still contains unresolved placeholder syntax:
a brace-wrapped non-empty brace-free name. -/
theorem C3_counterexample :
    specUnresolved (generate
      { OUTPUT_PATH := "outputs", DATA_PATH := "data", EXECUTION_PATH := "execution",
        CODE_TIMEOUT := 30 }
      { method_id := none, parameters := none }
      { id := "default", name := "デフォルト処理", library := "pandas", function := "basic",
        template_type := "general",
        code_template := "\x7b\x7bqq\x7d\x7d" }).code := by
  refine ⟨['\''], ['q', 'q', '\''], [], ?_, by decide, by decide, by decide⟩
  decide

/-- C3 (amended): for every template text and resolved parameter mapping
such that the configured paths are brace-free and no placeholder name
captured after parameter substitution contains an opening brace, the code
text returned by `CodeGenerator.generate` contains no unresolved placeholder
syntax — every captured placeholder is replaced by the default table's entry
for its name or, for an unrecognized name, by the quoted placeholder name
itself (each such fallback is logged as a warning in the source). -/
theorem C3_no_unresolved_placeholders (cfg : Config) (step : SelStep) (method : SelMethod)
    (hcfg : '{' ∉ cfg.OUTPUT_PATH.data ∧ '}' ∉ cfg.OUTPUT_PATH.data)
    (hg : ∀ g ∈ findallPH (substitute_loop (prepare_parameters cfg step method)
        method.code_template.data), '{' ∉ g) :
    ¬ specUnresolved (generate cfg step method).code := by
  intro hun
  have hclean : findallPH (generate cfg step method).code = [] := by
    rw [generate_code_eq]
    exact handle_undefined_clean cfg hcfg _ hg
  rcases hun with ⟨pre, name, post, he, hne, _, hb2⟩
  exact (findallPH_ne_of_match (generate cfg step method).code.length _ (Nat.le_refl _)
    ⟨pre, name, post, he, hne, hb2⟩).1 hclean

/-- Witness for C3 (amended) at a concrete input: a template with one known
placeholder and one unknown one synthesizes to brace-free code. -/
theorem C3_no_unresolved_placeholders_witness :
    ¬ specUnresolved (generate
      { OUTPUT_PATH := "outputs", DATA_PATH := "data", EXECUTION_PATH := "execution",
        CODE_TIMEOUT := 30 }
      { method_id := none, parameters := none }
      { id := "default", name := "デフォルト処理", library := "pandas", function := "basic",
        template_type := "general",
        code_template := "print('\x7btitle\x7d', '\x7bmystery\x7d')" }).code :=
  C3_no_unresolved_placeholders _ _ _ ⟨by decide, by decide⟩ (by decide)

/-- C9: for every method descriptor whose template text contains no
placeholder syntax (the scanner finds no brace-wrapped name) and whose
resolved parameter names are non-empty and free of close braces — every
parameter name in the source is a Python identifier — `CodeGenerator.generate`
returns the template text unchanged, byte for byte: the parameter loop, the
default-placeholder pass, the syntax-repair pass and the security scan all
leave it untouched. -/
theorem C9_roundtrip (cfg : Config) (step : SelStep) (method : SelMethod)
    (ht : findallPH method.code_template.data = [])
    (hk : ∀ kv ∈ prepare_parameters cfg step method, kv.1.data ≠ [] ∧ '}' ∉ kv.1.data) :
    (generate cfg step method).code = method.code_template.data := by
  rw [generate_code_eq]
  rw [substitute_loop_id (prepare_parameters cfg step method) method.code_template.data ht hk]
  rw [handle_undefined_placeholders, ht]
  rfl

/-- Witness for C9 at a concrete input: a placeholder-free template passes
through synthesis unchanged. -/
theorem C9_roundtrip_witness :
    (generate
      { OUTPUT_PATH := "outputs", DATA_PATH := "data", EXECUTION_PATH := "execution",
        CODE_TIMEOUT := 30 }
      { method_id := none, parameters := none }
      { id := "default", name := "デフォルト処理", library := "pandas", function := "basic",
        template_type := "general",
        code_template := "import pandas as pd\nprint(df.head())" }).code =
    ("import pandas as pd\nprint(df.head())" : String).data :=
  C9_roundtrip _ _ _ (by decide) (by decide)


theorem get_file_type_mem (name : String) :
    get_file_type name ∈ ["data", "image", "document", "text", "html", "unknown"] := by
  cases hl : type_mapping.lookup (String.mk ((splitextExt name.data).map Char.toLower)) with
  | none =>
    have hg : get_file_type name = "unknown" := by
      rw [get_file_type, hl]
    rw [hg]
    decide
  | some t =>
    have hg : get_file_type name = t := by
      rw [get_file_type, hl]
    rw [hg]
    have hv := lookup_mem_values type_mapping _ t hl
    simp only [type_mapping, List.map_cons, List.map_nil, List.mem_cons,
      List.not_mem_nil, or_false] at hv
    rcases hv with rfl|rfl|rfl|rfl|rfl|rfl|rfl|rfl <;> decide

/-- C7 (counterexample): the ArtifactInfo type tag is not always one of the
six values data/image/document/text/markup/unknown — a file named
"page.html" receives the tag "html", which is outside that set (and in
particular is not "markup"). -/
theorem C7_counterexample :
    get_file_type "page.html" = "html" ∧
    ("html" : String) ∉ ["data", "image", "document", "text", "markup", "unknown"] := by
  constructor
  · rfl
  · decide

/-- C7 (amended): for every file discovered under the shared output
directory the ArtifactInfo type tag is derived purely from the file-name
extension and is one of the six values data, image, document, text, html,
unknown; in particular a file named "result.csv" receives type "data". -/
theorem C7_artifact_types (output_path : String) (discovered : List FileMeta) :
    (∀ a ∈ find_generated_files output_path discovered,
      a.type ∈ ["data", "image", "document", "text", "html", "unknown"]) ∧
    get_file_type "result.csv" = "data" := by
  constructor
  · intro a ha
    rcases List.mem_map.mp ha with ⟨f, _, rfl⟩
    exact get_file_type_mem f.name
  · rfl

/-- Witness for C7 at a concrete input: a discovered "result.csv" yields an
artifact whose type tag is in the six-value set, and its tag is "data". -/
theorem C7_artifact_types_witness :
    ({ path := "outputs/result.csv", name := "result.csv", size := 10, modified := "t",
       type := "data" } : ArtifactInfo).type ∈
      ["data", "image", "document", "text", "html", "unknown"] ∧
    get_file_type "result.csv" = "data" := by
  have h := C7_artifact_types "outputs" [{ name := "result.csv", size := 10, modified := "t" }]
  exact ⟨h.1 _ (by decide), h.2⟩


theorem lookup_mem_pairs {β : Type} (l : List (String × β)) :
    ∀ (k : String) (v : β), l.lookup k = some v → (k, v) ∈ l := by
  induction l with
  | nil => intro k v h; simp [List.lookup] at h
  | cons kv rest ih =>
    intro k v h
    cases kv with
    | mk a b =>
      simp only [List.lookup] at h
      split at h
      · rename_i hbeq
        injection h with he
        subst he
        have hk : k = a := by simpa using hbeq
        subst hk
        exact List.mem_cons_self _ _
      · exact List.mem_cons_of_mem _ (ih k v h)

theorem catalog_ids : ∀ p ∈ method_mapping, p.2.id = p.1 := by decide

theorem adjust_parameters_method_meta (m : SelMethod) (step : SelStep) :
    (adjust_parameters m step).1.id = m.id ∧
    (adjust_parameters m step).1.code_template = m.code_template := by
  cases hp : step.parameters with
  | none =>
    simp only [adjust_parameters, hp]
    repeat' split
    all_goals simp
  | some p =>
    simp only [adjust_parameters, hp]
    repeat' split
    all_goals simp

theorem adjust_parameters_keeps_step (m : SelMethod) (step : SelStep)
    (h : m.id ≠ "kmeans_clustering" ∨ step.parameters = none ∨
         (∃ ps, step.parameters = some ps ∧ (ps.lookup "n_clusters").isSome = true)) :
    (adjust_parameters m step).2 = step := by
  cases hp : step.parameters with
  | none =>
    simp only [adjust_parameters, hp]
    repeat' split
    all_goals simp_all
  | some p =>
    have hcase : m.id ≠ "kmeans_clustering" ∨ (p.lookup "n_clusters").isSome = true := by
      rcases h with h1 | h2 | ⟨ps, hps, hl⟩
      · exact Or.inl h1
      · rw [hp] at h2; cases h2
      · rw [hp] at hps
        injection hps with he
        subst he
        exact Or.inr hl
    simp only [adjust_parameters, hp]
    have hid : ({ m with parameters := some p } : SelMethod).id = m.id := rfl
    rcases hcase with h1 | h2
    · rw [if_neg (by rw [hid]; exact h1)]
      repeat' split
      all_goals simp_all
    · by_cases hk : ({ m with parameters := some p } : SelMethod).id = "kmeans_clustering"
      · rw [if_pos hk]
        repeat' split
        all_goals simp_all
      · rw [if_neg hk]
        repeat' split
        all_goals simp_all

theorem select_eq (step : SelStep) :
    select step = adjust_parameters
      (match step.method_id with
       | some mid =>
         match method_mapping.lookup mid with
         | some m => m
         | none => get_default_method step
       | none => get_default_method step) step := rfl

/-- C8 (counterexample): `select` is not free of effects on its Step
argument.  For a clustering step whose parameters dictionary is present but
lacks n_clusters, `_adjust_parameters` first aliases the step's dictionary
into the method and then inserts the default cluster count in place, so the
step comes back changed. -/
theorem C8_counterexample :
    (select { method_id := some "kmeans_clustering", parameters := some [] }).2 ≠
      { method_id := some "kmeans_clustering", parameters := some [] } := by
  decide

/-- C8 (amended): selection is total (the embedding is a Lean function, so
it cannot raise) and touches no state shared between calls (the catalog is
rebuilt from a literal on every call); a Step whose method_id is not in the
catalog mapping resolves to the generic default descriptor with the minimal
template; and the Step argument is returned unmodified except in the single
aliasing case — a clustering step carrying a parameters dictionary that
lacks n_clusters, into which the default cluster count is written. -/
theorem C8_select_total (step : SelStep) :
    (step.method_id.bind (fun mid => method_mapping.lookup mid) = none →
      (select step).1.id = "default" ∧
      (select step).1.code_template =
        "import pandas as pd\n# デフォルト処理\nprint('処理を実行中...')") ∧
    ((step.method_id ≠ some "kmeans_clustering" ∨ step.parameters = none ∨
        (∃ ps, step.parameters = some ps ∧ (ps.lookup "n_clusters").isSome = true)) →
      (select step).2 = step) := by
  constructor
  · intro hnone
    have hsel : (match step.method_id with
       | some mid =>
         match method_mapping.lookup mid with
         | some m => m
         | none => get_default_method step
       | none => get_default_method step) = get_default_method step := by
      cases hm : step.method_id with
      | none => rfl
      | some mid =>
        have hl : method_mapping.lookup mid = none := by
          rw [hm] at hnone
          simpa using hnone
        simp [hl]
    rw [select_eq, hsel]
    exact ⟨(adjust_parameters_method_meta _ _).1, (adjust_parameters_method_meta _ _).2⟩
  · intro hmut
    rw [select_eq]
    apply adjust_parameters_keeps_step
    rcases hmut with h1 | h2 | h3
    · left
      cases hm : step.method_id with
      | none => simp [get_default_method]
      | some mid =>
        cases hl : method_mapping.lookup mid with
        | none => simp [hl, get_default_method]
        | some m =>
          have hpair := lookup_mem_pairs method_mapping mid m hl
          have hid : m.id = mid := catalog_ids (mid, m) hpair
          simp only [hl]
          rw [hid]
          intro hcon
          subst hcon
          exact h1 (by rw [hm])
    · exact Or.inr (Or.inl h2)
    · exact Or.inr (Or.inr h3)

/-- Witness for C8 at a concrete input: an unknown method_id resolves to the
default descriptor and the step comes back unchanged. -/
theorem C8_select_total_witness :
    (select { method_id := some "no_such_method", parameters := none }).1.id = "default" ∧
    (select { method_id := some "no_such_method", parameters := none }).2 =
      { method_id := some "no_such_method", parameters := none } := by
  have h := C8_select_total { method_id := some "no_such_method", parameters := none }
  exact ⟨(h.1 (by decide)).1, h.2 (Or.inr (Or.inl rfl))⟩


/-! ## Lemmas: the sandbox filesystem model -/

theorem fsAddFile_dirs (fs : FS) (p : String) : (fsAddFile fs p).dirs = fs.dirs := by
  rw [fsAddFile]
  split <;> rfl

theorem fsAddDir_files (fs : FS) (d : String) : (fsAddDir fs d).files = fs.files := by
  rw [fsAddDir]
  split <;> rfl

theorem mem_fsAddFile (fs : FS) (p q : String) :
    p ∈ (fsAddFile fs q).files ↔ p ∈ fs.files ∨ p = q := by
  rw [fsAddFile]
  split
  · rename_i hq
    constructor
    · exact Or.inl
    · rintro (h | rfl)
      · exact h
      · exact hq
  · simp

theorem mem_fsAddDir (fs : FS) (d q : String) :
    q ∈ (fsAddDir fs d).dirs ↔ q ∈ fs.dirs ∨ q = d := by
  rw [fsAddDir]
  split
  · rename_i hd
    constructor
    · exact Or.inl
    · rintro (h | rfl)
      · exact h
      · exact hd
  · simp

theorem isUnder_append (d x : String) : isUnder d (d ++ "/" ++ x) = true := by
  rw [isUnder]
  refine List.isPrefixOf_iff_prefix.mpr ⟨x.data, ?_⟩
  simp [String.data_append]

theorem isUnder_self (d : String) : isUnder d d = false := by
  rcases Bool.eq_false_or_eq_true (isUnder d d) with h | h
  · exfalso
    rw [isUnder] at h
    have hle := (List.isPrefixOf_iff_prefix.mp h).length_le
    simp [String.data_append] at hle
  · exact h

theorem dropWhile_append_of_all {p : Char → Bool} (u v : List Char)
    (h : ∀ c ∈ u, p c = true) :
    (u ++ v).dropWhile p = v.dropWhile p := by
  induction u with
  | nil => rfl
  | cons c u2 ih =>
    have hc : p c = true := h c (List.mem_cons_self _ _)
    simp only [List.cons_append, List.dropWhile_cons, hc, if_true]
    exact ih (fun c2 hm => h c2 (List.mem_cons_of_mem _ hm))

theorem string_mk_data (s : String) : String.mk s.data = s := rfl

theorem dirnameStr_append (d x : String) (hx : '/' ∉ x.data) :
    dirnameStr (d ++ "/" ++ x) = d := by
  have hdata : (d ++ "/" ++ x).data = d.data ++ '/' :: x.data := by
    simp [String.data_append]
  rw [dirnameStr]
  rw [if_pos (by rw [hdata]; simp)]
  have hrev : (d ++ "/" ++ x).data.reverse = x.data.reverse ++ '/' :: d.data.reverse := by
    rw [hdata]
    simp
  rw [hrev]
  rw [dropWhile_append_of_all x.data.reverse ('/' :: d.data.reverse)
    (by
      intro c hm
      have hcm : c ∈ x.data := List.mem_reverse.mp hm
      simp only [decide_eq_true_eq]
      intro he
      exact hx (he ▸ hcm))]
  have hstep : ('/' :: d.data.reverse).dropWhile (fun c => c ≠ '/') = '/' :: d.data.reverse := by
    simp [List.dropWhile_cons]
  rw [hstep]
  simp [string_mk_data]

theorem execute_fs (cfg : Config) (eid : String) (outcome : RunOutcome)
    (ci : CodeInfo) (discovered : List FileMeta) (st : ExecState) (fs0 : FS) :
    (execute cfg eid outcome ci discovered st fs0).2.2 =
      cleanup_temp_files
        (fsAddFile
          (fsAddFile
            (fsAddDir (fsAddDir (fsAddDir fs0 cfg.OUTPUT_PATH) cfg.DATA_PATH)
              (execution_dir cfg eid))
            (code_file_path cfg eid))
          (cfg.OUTPUT_PATH ++ "/execution_history.json"))
        (code_file_path cfg eid) := by
  cases outcome <;> simp only [execute, run_code, record_execution]

theorem execute_timeout_result (cfg : Config) (eid : String)
    (ci : CodeInfo) (discovered : List FileMeta) (st : ExecState) (fs0 : FS) :
    (execute cfg eid RunOutcome.timeout ci discovered st fs0).1 =
      ExecReturn.err eid ("実行タイムアウト（" ++ toString cfg.CODE_TIMEOUT ++ "秒）") := rfl

/-- C6: on every exit path of `execute` — a completed child with any exit
status, a timeout, or a launch failure — the materialized code file is
removed afterwards, and (the execution directory being fresh: nothing of the
prior filesystem lies under it, it is no ancestor of the configured
output/data paths or of the ledger file, and the execution id carries no
path separator) the then-empty execution directory is removed as well; and
when the child exceeds the timeout ceiling, `execute` returns the failed
record for that step only, carrying the fixed timeout message. -/
theorem C6_cleanup_and_timeout (cfg : Config) (eid : String) (outcome : RunOutcome)
    (ci : CodeInfo) (discovered : List FileMeta) (st : ExecState) (fs0 : FS)
    (hslash : '/' ∉ eid.data)
    (hf : ∀ f ∈ fs0.files, isUnder (execution_dir cfg eid) f = false)
    (hd : ∀ d ∈ fs0.dirs, isUnder (execution_dir cfg eid) d = false)
    (hh : isUnder (execution_dir cfg eid) (cfg.OUTPUT_PATH ++ "/execution_history.json") = false)
    (ho : isUnder (execution_dir cfg eid) cfg.OUTPUT_PATH = false)
    (hdp : isUnder (execution_dir cfg eid) cfg.DATA_PATH = false) :
    code_file_path cfg eid ∉ (execute cfg eid outcome ci discovered st fs0).2.2.files ∧
    execution_dir cfg eid ∉ (execute cfg eid outcome ci discovered st fs0).2.2.dirs ∧
    (outcome = RunOutcome.timeout →
      (execute cfg eid outcome ci discovered st fs0).1 =
        ExecReturn.err eid ("実行タイムアウト（" ++ toString cfg.CODE_TIMEOUT ++ "秒）")) := by
  have hshape : code_file_path cfg eid =
      execution_dir cfg eid ++ "/" ++ (eid ++ ".py") := by
    rw [code_file_path]
    simp [String.append_assoc]
  have hdirname : dirnameStr (code_file_path cfg eid) = execution_dir cfg eid := by
    rw [hshape]
    apply dirnameStr_append
    intro hm
    rw [String.data_append] at hm
    rcases List.mem_append.mp hm with hm2 | hm2
    · exact hslash hm2
    · revert hm2
      decide
  rw [execute_fs]
  set fsB := fsAddFile
      (fsAddFile
        (fsAddDir (fsAddDir (fsAddDir fs0 cfg.OUTPUT_PATH) cfg.DATA_PATH)
          (execution_dir cfg eid))
        (code_file_path cfg eid))
      (cfg.OUTPUT_PATH ++ "/execution_history.json") with hfsB
  have hmemfile : code_file_path cfg eid ∈ fsB.files := by
    rw [hfsB, mem_fsAddFile, mem_fsAddFile]
    exact Or.inl (Or.inr rfl)
  have hfiles_char : ∀ f ∈ fsB.files,
      f = code_file_path cfg eid ∨ isUnder (execution_dir cfg eid) f = false := by
    intro f hmem
    rw [hfsB, mem_fsAddFile, mem_fsAddFile] at hmem
    rcases hmem with ((hmem | rfl) | rfl)
    · rw [fsAddDir_files, fsAddDir_files, fsAddDir_files] at hmem
      exact Or.inr (hf f hmem)
    · exact Or.inl rfl
    · exact Or.inr hh
  have hdirs_char : ∀ d2 ∈ fsB.dirs, isUnder (execution_dir cfg eid) d2 = false := by
    intro d2 hmem
    rw [hfsB, fsAddFile_dirs, fsAddFile_dirs, mem_fsAddDir, mem_fsAddDir, mem_fsAddDir] at hmem
    rcases hmem with (((hmem | rfl) | rfl) | rfl)
    · exact hd d2 hmem
    · exact ho
    · exact hdp
    · exact isUnder_self _
  have hcond : dirnameStr (code_file_path cfg eid) ∈ fsB.dirs ∧
      (fsB.files.filter (fun f => f ≠ code_file_path cfg eid)).all
        (fun f => !isUnder (dirnameStr (code_file_path cfg eid)) f) ∧
      fsB.dirs.all (fun f => !isUnder (dirnameStr (code_file_path cfg eid)) f) := by
    refine ⟨?_, ?_, ?_⟩
    · rw [hdirname, hfsB, fsAddFile_dirs, fsAddFile_dirs, mem_fsAddDir]
      exact Or.inr rfl
    · rw [List.all_eq_true]
      intro f hmem
      rcases List.mem_filter.mp hmem with ⟨hin, hne⟩
      have hne2 : f ≠ code_file_path cfg eid := by simpa using hne
      rcases hfiles_char f hin with he | hu
      · exact absurd he hne2
      · rw [hdirname, hu]
        rfl
    · rw [List.all_eq_true]
      intro d2 hmem
      rw [hdirname, hdirs_char d2 hmem]
      rfl
  rw [cleanup_temp_files, if_pos hmemfile, if_pos hcond]
  refine ⟨?_, ?_, ?_⟩
  · intro hmem
    rcases List.mem_filter.mp hmem with ⟨-, hne⟩
    simp at hne
  · intro hmem
    rcases List.mem_filter.mp hmem with ⟨-, hne⟩
    rw [hdirname] at hne
    simp at hne
  · intro ho2
    subst ho2
    rfl

/-- Witness for C6 at a concrete input: a timed-out execution in a fresh
execution directory leaves neither the code file nor the directory behind
and is classified as the fixed timeout failure. -/
theorem C6_cleanup_and_timeout_witness :
    code_file_path
        { OUTPUT_PATH := "outputs", DATA_PATH := "data", EXECUTION_PATH := "execution",
          CODE_TIMEOUT := 30 } "e1" ∉
      (execute
        { OUTPUT_PATH := "outputs", DATA_PATH := "data", EXECUTION_PATH := "execution",
          CODE_TIMEOUT := 30 } "e1" RunOutcome.timeout
        { method_id := "m", method_name := "n" } [] { execution_history := [] }
        { files := [], dirs := [] }).2.2.files ∧
    execution_dir
        { OUTPUT_PATH := "outputs", DATA_PATH := "data", EXECUTION_PATH := "execution",
          CODE_TIMEOUT := 30 } "e1" ∉
      (execute
        { OUTPUT_PATH := "outputs", DATA_PATH := "data", EXECUTION_PATH := "execution",
          CODE_TIMEOUT := 30 } "e1" RunOutcome.timeout
        { method_id := "m", method_name := "n" } [] { execution_history := [] }
        { files := [], dirs := [] }).2.2.dirs ∧
    (execute
        { OUTPUT_PATH := "outputs", DATA_PATH := "data", EXECUTION_PATH := "execution",
          CODE_TIMEOUT := 30 } "e1" RunOutcome.timeout
        { method_id := "m", method_name := "n" } [] { execution_history := [] }
        { files := [], dirs := [] }).1 =
      ExecReturn.err "e1" ("実行タイムアウト（" ++ toString (30 : Nat) ++ "秒）") := by
  have h := C6_cleanup_and_timeout
    { OUTPUT_PATH := "outputs", DATA_PATH := "data", EXECUTION_PATH := "execution",
      CODE_TIMEOUT := 30 } "e1" RunOutcome.timeout
    { method_id := "m", method_name := "n" } [] { execution_history := [] }
    { files := [], dirs := [] }
    (by decide) (by simp) (by simp) (by decide) (by decide) (by decide)
  exact ⟨h.1, h.2.1, h.2.2 rfl⟩


/-- C5 (counterexample): the wrapper does not print the traceback to
standard output — `traceback.print_exc()` writes to standard error, so on a
failing user program the captured standard error is non-empty and the
traceback text is absent from standard output. -/
theorem C5_counterexample :
    (wrapper_run { printed := "", outcome := Except.error "boom" }).stderr ≠ "" ∧
    ¬ (("Traceback" : String).data <:+:
        (wrapper_run { printed := "", outcome := Except.error "boom" }).stdout.data) := by
  constructor
  · decide
  · decide

/-- C5 (amended): for every generated code text whose execution raises, the
wrapper built by `_prepare_full_code` catches the exception inside the child
process, prints the message to standard output while the traceback goes to
standard error, and the child still exits with status 0, so
`_process_execution_result` classifies the run as success with no
error_info — a runtime failure of the analysis code itself is recorded as a
success. -/
theorem C5_runtime_error_is_success (cfg : Config) (u : UserRun) (e : String)
    (h : u.outcome = Except.error e) (ci : CodeInfo) (discovered : List FileMeta) :
    (process_execution_result cfg (wrapper_run u) ci discovered).success = true ∧
    (process_execution_result cfg (wrapper_run u) ci discovered).error_info = none ∧
    ("実行エラー: " ++ e).data <:+: (wrapper_run u).stdout.data ∧
    ("Traceback" : String).data <:+: (wrapper_run u).stderr.data := by
  have hstdout : (wrapper_run u).stdout =
      "=== 実行開始 ===\n" ++ u.printed ++ ("実行エラー: " ++ e ++ "\n") := by
    simp [wrapper_run, h]
  have hstderr : (wrapper_run u).stderr =
      "Traceback (most recent call last):\n" ++ e ++ "\n" := by
    simp [wrapper_run, h]
  refine ⟨?_, ?_, ?_, ?_⟩
  · simp [process_execution_result, wrapper_run]
  · simp [process_execution_result, wrapper_run]
  · refine ⟨("=== 実行開始 ===\n" ++ u.printed).data, ("\n" : String).data, ?_⟩
    rw [hstdout]
    simp [String.data_append]
  · refine ⟨[], (" (most recent call last):\n" ++ e ++ "\n").data, ?_⟩
    rw [hstderr]
    simp [String.data_append]

/-- Witness for C5 (amended) at a concrete input: a division-by-zero run is
recorded as a success with no error information. -/
theorem C5_runtime_error_is_success_witness :
    (process_execution_result
      { OUTPUT_PATH := "outputs", DATA_PATH := "data", EXECUTION_PATH := "execution",
        CODE_TIMEOUT := 30 }
      (wrapper_run { printed := "x\n", outcome := Except.error "ZeroDivisionError" })
      { method_id := "m", method_name := "n" } []).success = true ∧
    (process_execution_result
      { OUTPUT_PATH := "outputs", DATA_PATH := "data", EXECUTION_PATH := "execution",
        CODE_TIMEOUT := 30 }
      (wrapper_run { printed := "x\n", outcome := Except.error "ZeroDivisionError" })
      { method_id := "m", method_name := "n" } []).error_info = none := by
  have h := C5_runtime_error_is_success
    { OUTPUT_PATH := "outputs", DATA_PATH := "data", EXECUTION_PATH := "execution",
      CODE_TIMEOUT := 30 }
    { printed := "x\n", outcome := Except.error "ZeroDivisionError" }
    "ZeroDivisionError" rfl { method_id := "m", method_name := "n" } []
  exact ⟨h.1, h.2.1⟩


/-! ## Lemmas: the orchestrator loop -/

theorem envelope_status_cases {Res Interp Resp : Type} (e : Envelope Res Interp Resp) :
    e.status = "success" ∨ e.status = "error" := by
  cases e
  · exact Or.inl rfl
  · exact Or.inr rfl

theorem runLoop_results {Intent Kn Step Res Interp Resp : Type}
    (env : OrchEnv Intent Kn Step Res Interp Resp) (sid : String) :
    ∀ (plan : List Step) (st : OrchState Intent Step Res Resp),
      (runLoop env sid st plan).1 = plan.map (stepOutcome env sid) := by
  intro plan
  induction plan with
  | nil => intro st; rfl
  | cons step rest ih =>
    intro st
    cases he : env.exec_step step sid with
    | ok r => simp [runLoop, stepOutcome, he, ih]
    | error e => simp [runLoop, stepOutcome, he, ih]

/-- C1: for every collaborator behaviour — in particular for every plan the
planner produces and every way a step execution can raise — the caller of
`process_user_input` always receives a structured envelope, with status
"success" or "error", never an unhandled fault; and whenever the pipeline
reaches the loop and the post-loop collaborators succeed, the success
envelope carries exactly one execution record per plan step, in plan order,
where a raising step is recovered locally into its error record and every
later step still runs. -/
theorem C1_envelope_and_per_step {Intent Kn Step Res Interp Resp : Type}
    (env : OrchEnv Intent Kn Step Res Interp Resp)
    (st0 : OrchState Intent Step Res Resp) (ui sid : String) :
    ((process_user_input env st0 ui sid).1.status = "success" ∨
     (process_user_input env st0 ui sid).1.status = "error") ∧
    (∀ (intent : Intent) (kn : Kn) (plan : List Step) (sess : Session Intent Step Res)
       (interp : Interp) (resp : Resp),
      env.parse ui = Except.ok intent →
      env.rag_search intent = Except.ok kn →
      env.plan intent kn = Except.ok plan →
      lookupSession st0 sid = some sess →
      env.interpret (plan.map (stepOutcome env sid)) kn = Except.ok interp →
      env.respond ui intent (plan.map (stepOutcome env sid)) interp = Except.ok resp →
      (process_user_input env st0 ui sid).1 =
        Envelope.success sid resp (plan.map (stepOutcome env sid)) interp) := by
  constructor
  · exact envelope_status_cases _
  · intro intent kn plan sess interp resp h1 h2 h3 h4 h5 h6
    simp only [process_user_input, h1, h2, h3, h4, runLoop_results, h5, h6]

/-- Witness for C1 at a concrete input: a two-step plan whose second step
raises still yields a success envelope with one record per step, the second
recovered into an error record. -/
theorem C1_envelope_and_per_step_witness :
    (process_user_input sampleEnv sampleState "hello" "sess").1 =
      Envelope.success "sess" "resp"
        ((["s1", "s2"]).map (stepOutcome sampleEnv "sess")) "interp" := by
  have h := C1_envelope_and_per_step sampleEnv sampleState "hello" "sess"
  exact h.2 "intent" "kn" ["s1", "s2"]
    { current_step := 0, analysis_plan := [], execution_results := [], context := [] }
    "interp" "resp" rfl rfl rfl rfl rfl rfl

/-- C10: calling `process_user_input` with a session id for which
`start_session` was never called executes no step, creates no session entry
for that id, leaves the state untouched, and returns a structured envelope
with status "error" (the plan-storing subscript raises `KeyError`, which the
top-level handler converts). -/
theorem C10_missing_session {Intent Kn Step Res Interp Resp : Type}
    (env : OrchEnv Intent Kn Step Res Interp Resp)
    (st0 : OrchState Intent Step Res Resp) (ui sid : String)
    (h : lookupSession st0 sid = none) :
    (process_user_input env st0 ui sid).1.status = "error" ∧
    (process_user_input env st0 ui sid).2.1 = st0 ∧
    (process_user_input env st0 ui sid).2.2 = [] ∧
    lookupSession (process_user_input env st0 ui sid).2.1 sid = none := by
  cases hp : env.parse ui with
  | error e => simp [process_user_input, hp, Envelope.status, h]
  | ok intent =>
    cases hr : env.rag_search intent with
    | error e => simp [process_user_input, hp, hr, Envelope.status, h]
    | ok kn =>
      cases hpl : env.plan intent kn with
      | error e => simp [process_user_input, hp, hr, hpl, Envelope.status, h]
      | ok plan => simp [process_user_input, hp, hr, hpl, h, Envelope.status]

/-- Witness for C10 at a concrete input: with no session installed, the call
returns an error envelope, the state is unchanged, and no step ran. -/
theorem C10_missing_session_witness :
    (process_user_input sampleEnv emptyState "hello" "nosess").1.status = "error" ∧
    (process_user_input sampleEnv emptyState "hello" "nosess").2.1 = emptyState ∧
    (process_user_input sampleEnv emptyState "hello" "nosess").2.2 = [] ∧
    lookupSession (process_user_input sampleEnv emptyState "hello" "nosess").2.1 "nosess" =
      none :=
  C10_missing_session sampleEnv emptyState "hello" "nosess" rfl

end CoAnalyst
